import Mathlib

/-!
Verification of the browser login automation flows of this repository.

The TypeScript sources (`src/apps/linkedin/auth/basic-2fa-login.ts`,
`src/apps/comply-advantage/mesh/auth/basic-login.ts`, and the agent-based
login module) are shallowly embedded below.  Every page-driver and
collaborator interaction (navigation, visibility waits, fills, key
presses, clicks, credential fetches, session creation, browser close) is
recorded in an explicit `Act` trace, and the behaviour of the
collaborators (configuration environment, credential provider, session
provisioner, page driver) is supplied by an environment record, so each
flow is a total function from a collaborator behaviour to a result plus
the trace of driver actions it performed.  A top-level result of
`Except.error e` means the original function threw the exception `e`
past its own boundary; `Except.ok r` means it returned the structured
`LoginResult` `r`.
-/

/-- One observable interaction with a collaborator (page driver,
credential provider or session provisioner).  Locator indices model
`.first()` (index 0) and `.nth(i)`. -/
inductive Act where
  | navigate (url : String) (timeoutMs : Nat)
  | waitVisibleFor (sel : String) (timeoutMs : Nat)
  | fill (sel : String) (idx : Nat) (value : String)
  | typeText (sel : String) (idx : Nat) (value : String)
  | press (sel : String) (idx : Nat) (key : String)
  | click (sel : String) (idx : Nat)
  | jsClick (sel : String)
  | isVisibleCheck (sel : String)
  | countDigitInputs
  | waitForUrl (pattern : String) (timeoutMs : Nat)
  | currentUrlCheck
  | waitForNavigation (timeoutMs : Nat)
  | waitForNewPage (timeoutMs : Nat)
  | scrollTop
  | fetchCredentials (identityId : String)
  | connectSession (sessionId : String)
  | createSession (extraStealth : Bool)
  | agentTask
  | closeBrowser
  deriving DecidableEq, Repr

/-- A named field of a `custom` credential record. -/
structure CredField where
  name : String
  value : String
  deriving DecidableEq, Repr

/-- A credential record: the tagged union over
`username_password`, `authenticator` and `custom` (see `src/types.ts`
and the `credentials.forEach` dispatch in both parse functions).  The
`otp` of an authenticator record may be absent (`cred.otp` may be
`undefined` in the source), hence `Option String`. -/
inductive Cred where
  | username_password (username password : String)
  | authenticator (otp : Option String)
  | custom (fields : List CredField)
  deriving DecidableEq, Repr

/-- The credential provider response: `{ name, credentials }`. -/
structure IdentityResponse where
  name : String
  credentials : List Cred
  deriving DecidableEq, Repr

/-- The `LoginResult` interface shared by all three flows. -/
structure LoginResult where
  success : Bool
  message : String
  deriving DecidableEq, Repr

/-- Outcome of one `page.waitForURL(pattern, …)` call together with the
value `page.url()` would report immediately afterwards: `waitOk` is
true when the pattern matched within the timeout. -/
structure UrlWaitOracle where
  waitOk : Bool
  currentUrl : String
  deriving DecidableEq, Repr

/-- The computation monad of the embedding: a result (or a thrown
exception message) together with the trace of collaborator actions
performed.  This is `ExceptT String (Writer (List Act))`: the trace
survives a throw, as real side effects do. -/
def M (α : Type) : Type := Except String α × List Act

/-- `pure` of `M`. -/
def M.pureM {α : Type} (a : α) : M α := (Except.ok a, [])

/-- `bind` of `M`: propagate a thrown exception, concatenate traces. -/
def M.bindM {α β : Type} (x : M α) (f : α → M β) : M β :=
  match x with
  | (Except.error e, t) => (Except.error e, t)
  | (Except.ok a, t) => ((f a).1, t ++ (f a).2)

instance : Monad M where
  pure := M.pureM
  bind := M.bindM

/-- Throwing an exception (`throw new Error(e)` in the source). -/
def M.fail {α : Type} (e : String) : M α := (Except.error e, [])

/-- Record one collaborator action. -/
def emit (a : Act) : M Unit := (Except.ok (), [a])

/-- Record a batch of collaborator actions. -/
def emitAll (as : List Act) : M Unit := (Except.ok (), as)

/-- Run a fallible pure computation inside `M` (a synchronous call that
may throw). -/
def liftE {α : Type} (x : Except String α) : M α := (x, [])

/-- Character-list prefix test (structurally recursive, so that it
reduces definitionally on concrete inputs). -/
def prefixOfB : List Char → List Char → Bool
  | [], _ => true
  | _ :: _, [] => false
  | a :: as, b :: bs => a == b && prefixOfB as bs

/-- Character-list infix test (structurally recursive). -/
def infixOfB : List Char → List Char → Bool
  | p, [] => p.isEmpty
  | p, c :: rest => prefixOfB p (c :: rest) || infixOfB p rest

/-- JavaScript `string.includes(pat)` and the unanchored regex tests of
the sources (`/linkedin\.com\/feed\//.test`,
`/mesh\.complyadvantage\.com\//.test`): `pat` occurs as a contiguous
substring of `s`. -/
def strContains (s pat : String) : Bool := infixOfB pat.data s.data

/-- JavaScript `string.toLowerCase()`, character by character. -/
def lowerStr (s : String) : String := String.mk (s.data.map Char.toLower)

/-- JavaScript `string.trim()`: strip leading and trailing whitespace. -/
def trimStr (s : String) : String :=
  String.mk (((s.data.dropWhile Char.isWhitespace).reverse.dropWhile
    Char.isWhitespace).reverse)

/-- JavaScript truthiness of a string rendered by `${!!s}`. -/
def truthy (s : String) : String := if s = "" then "false" else "true"

/-- `waitForVisible` (both flows): `page.waitForSelector(sel,
{state:'visible', timeout})`, throwing on timeout. -/
def waitForVisibleM (vis : String → Bool) (selector : String)
    (timeout : Nat) : M Unit := do
  emit (Act.waitVisibleFor selector timeout)
  if vis selector then pure () else
    M.fail ("Timeout waiting for selector " ++ selector)

namespace Linkedin

/-- Result of `ConfigSchema.parse` in `basic-2fa-login.ts`. -/
structure Config where
  sessionId : String
  identityId : String
  timeoutMs : Nat
  homeUrl : String
  deriving DecidableEq, Repr

/-- Resolved LinkedIn credentials. -/
structure LinkedinCredentials where
  username : String
  password : String
  otp : String
  deriving DecidableEq, Repr

/-- Behaviour of all collaborators for one `LoginToLinkedin` run.
`sessionIdVar`, `identityIdVar`, `timeoutMsVar` are the environment
variables (`none` = unset); `fetchResult` and `refetchResult` are the
credential provider answers to the first and second
`retrieveCredentials` call; `sessionResult` is the session
provisioner; `visible` answers every visibility probe;
`digitCount` is `digitInputs.count()`; the three `UrlWaitOracle`s
answer the three `waitForURL`/`page.url()` call sites. -/
structure LinkedinEnv where
  sessionIdVar : Option String
  identityIdVar : Option String
  timeoutMsVar : Option Nat
  fetchResult : Except String IdentityResponse
  refetchResult : Except String IdentityResponse
  sessionResult : Except String Unit
  hasContext : Bool
  hasPage : Bool
  gotoHomeOk : Bool
  gotoHomeErr : String
  visible : String → Bool
  digitCount : Nat
  precheck : UrlWaitOracle
  otpVerify : UrlWaitOracle
  finalVerify : UrlWaitOracle

/-- `getConfig`: `ConfigSchema.parse` with `sessionId` defaulting to
`''`, `identityId` required non-empty (`min(1)`), `timeoutMs`
defaulting to `10000`, and the fixed `homeUrl`. -/
def getConfig (env : LinkedinEnv) : Except String Config :=
  match env.identityIdVar with
  | none => Except.error "ANCHOR_IDENTITY_ID is required"
  | some id =>
    if id = "" then Except.error "ANCHOR_IDENTITY_ID is required"
    else Except.ok
      { sessionId := env.sessionIdVar.getD ""
        identityId := id
        timeoutMs := env.timeoutMsVar.getD 10000
        homeUrl := "https://www.linkedin.com/uas/login" }

/-- `parseLinkedinCredentials`: the `credentials.forEach` scan (later
records of the same kind overwrite earlier ones). -/
def linkedinScan (credentials : List Cred) : LinkedinCredentials :=
  credentials.foldl
    (fun st c =>
      match c with
      | Cred.username_password u p => { st with username := u, password := p }
      | Cred.authenticator o => { st with otp := o.getD "" }
      | Cred.custom _ => st)
    { username := "", password := "", otp := "" }

/-- `parseLinkedinCredentials`: throws when username or password is
empty after the scan, with the message naming each field's presence. -/
def parseLinkedinCredentials (credentials : List Cred) :
    Except String LinkedinCredentials :=
  let st := linkedinScan credentials
  if st.username = "" ∨ st.password = "" then
    Except.error ("Missing required credentials. Found: username="
      ++ truthy st.username ++ ", password=" ++ truthy st.password)
  else
    Except.ok st

/-- `fetchIdentityCredentials`: one `retrieveCredentials` call, answered
by the credential provider (`result`). -/
def fetchIdentityCredentials (result : Except String IdentityResponse)
    (identityId : String) : M IdentityResponse := do
  emit (Act.fetchCredentials identityId)
  liftE result

/-- `getAnchorBrowser`: connect to the existing session when
`config.sessionId` is truthy, otherwise create a new one (with the
stealth/captcha/proxy options exactly when `extraStealthRequired`). -/
def getAnchorBrowser (env : LinkedinEnv) (config : Config)
    (extraStealthRequired : Bool) : M Unit := do
  if config.sessionId ≠ "" then do
    emit (Act.connectSession config.sessionId)
    liftE env.sessionResult
  else do
    emit (Act.createSession extraStealthRequired)
    liftE env.sessionResult

/-- `navigateToHomepage`: `page.goto(homeUrl)`; on navigation error,
rethrow unless the `#login-nav-button` fallback probe is visible. -/
def navigateToHomepage (env : LinkedinEnv) (config : Config) : M Unit := do
  emit (Act.navigate config.homeUrl config.timeoutMs)
  if env.gotoHomeOk then pure ()
  else do
    emit (Act.isVisibleCheck "#login-nav-button")
    if env.visible "#login-nav-button" then pure ()
    else M.fail env.gotoHomeErr

/-- The username field selector of `enterUsername`. -/
def usernameSelector : String :=
  "input#username[name=\"session_key\"][type=\"email\"]"

/-- The password field selector of `enterPasswordAndSubmit`. -/
def passwordSelector : String :=
  "input#password[name=\"session_password\"][type=\"password\"]"

/-- `enterUsername`: wait for the field, fill it, press Tab. -/
def enterUsername (env : LinkedinEnv) (username : String)
    (timeoutMs : Nat) : M Unit := do
  waitForVisibleM env.visible usernameSelector timeoutMs
  emit (Act.fill usernameSelector 0 username)
  emit (Act.press usernameSelector 0 "Tab")

/-- `enterPasswordAndSubmit`: wait for the field, fill it, press Enter
(the one primary submit). -/
def enterPasswordAndSubmit (env : LinkedinEnv) (password : String)
    (timeoutMs : Nat) : M Unit := do
  waitForVisibleM env.visible passwordSelector timeoutMs
  emit (Act.fill passwordSelector 0 password)
  emit (Act.press passwordSelector 0 "Enter")

/-- The glob pattern of every `waitForURL` in the LinkedIn flow. -/
def feedUrlPattern : String := "**linkedin.com/feed/**"

/-- `verifyLogin`: wait for the feed URL with timeout
`max(timeoutMs, fallbackTimeout)` (the source declares the default
`fallbackTimeout = 60000`, though every call site in this flow passes
`10000`); on timeout re-check `page.url()` against
`/linkedin\.com\/feed\//` once. -/
def verifyLogin (o : UrlWaitOracle) (_step : Nat) (timeoutMs : Nat)
    (fallbackTimeout : Nat) : M Bool := do
  emit (Act.waitForUrl feedUrlPattern (max timeoutMs fallbackTimeout))
  if o.waitOk then pure true
  else do
    emit Act.currentUrlCheck
    pure (strContains o.currentUrl "linkedin.com/feed/")

/-- The prioritized generic submit/verify/continue selectors of
`clickCommonSubmit`. -/
def submitSelectors : List String :=
  ["button:has-text(\"Submit\")",
   "button:has-text(\"Verify\")",
   "button:has-text(\"Continue\")",
   "button[type=\"submit\"]",
   "input[type=\"submit\"]"]

/-- `clickCommonSubmit`: probe all candidates concurrently
(`Promise.all` keeps the results in declared order), pick the first
visible one in list order (`results.find`), click it raced against a
45s navigation wait. -/
def clickCommonSubmit (env : LinkedinEnv) : M Bool := do
  emitAll (submitSelectors.map Act.isVisibleCheck)
  match submitSelectors.find? env.visible with
  | some sel => do
    emit (Act.waitForNavigation 45000)
    emit (Act.click sel 0)
    pure true
  | none => pure false

/-- The prioritized single combined-code field selectors of
`locateOtpInputs`. -/
def singleOtpSelectors : List String :=
  ["input[name=\"pin\"][maxlength=\"6\"]",
   "input[name=\"code\"]",
   "input[autocomplete=\"one-time-code\"]",
   "input[id*=\"verification\" i]",
   "input[inputmode=\"numeric\"][maxlength=\"6\"]"]

/-- The combined selector of the six separate digit boxes. -/
def digitInputsSelector : String :=
  "input[aria-label*=\"digit\" i], input[pattern=\"\\d*\"][maxlength=\"1\"], input[inputmode=\"numeric\"][maxlength=\"1\"]"

/-- `OtpInputResult`: single combined field (with its selector) or the
multi-digit layout. -/
inductive OtpInputResult where
  | single (sel : String)
  | multi
  deriving DecidableEq, Repr

/-- `locateOtpInputs`: probe the single-field selectors concurrently
and pick the first visible in declared order; otherwise count the digit
boxes and use the multi layout when at least 6 are present; otherwise
nothing. -/
def locateOtpInputs (env : LinkedinEnv) : M (Option OtpInputResult) := do
  emitAll (singleOtpSelectors.map Act.isVisibleCheck)
  match singleOtpSelectors.find? env.visible with
  | some sel => pure (some (OtpInputResult.single sel))
  | none => do
    emit Act.countDigitInputs
    if 6 ≤ env.digitCount then pure (some OtpInputResult.multi)
    else pure none

/-- The fill/type actions of the multi-digit loop: for each index
`i < total`, clear the `i`-th box and type `arr[i] ?? ''`. -/
def otpDigitActions (arr : List Char) (total : Nat) : List Act :=
  (List.range total).flatMap (fun i =>
    [Act.fill digitInputsSelector i "",
     Act.typeText digitInputsSelector i
       (match arr.get? i with
        | some c => c.toString
        | none => "")])

/-- `submitOtpCode`: locate the OTP inputs (throwing
"OTP inputs not found" when neither layout is present); single layout:
clear, fill the whole code, press Enter raced against a 45s navigation
wait; multi layout: fill `min(count, |otp|)` digit boxes left-to-right
by index, press Enter on the last filled box raced against the
navigation wait; in both layouts, when the post-submit `verifyLogin`
fails, attempt exactly one `clickCommonSubmit` fallback. -/
def submitOtpCode (env : LinkedinEnv) (otp : String) (step : Nat)
    (timeoutMs : Nat) : M Unit := do
  let inputs ← locateOtpInputs env
  match inputs with
  | none => M.fail "OTP inputs not found"
  | some (OtpInputResult.single sel) => do
    emit (Act.fill sel 0 "")
    emit (Act.fill sel 0 otp)
    emit (Act.waitForNavigation 45000)
    emit (Act.press sel 0 "Enter")
    let ok ← verifyLogin env.otpVerify step timeoutMs 10000
    if ok then pure () else do
      let _ ← clickCommonSubmit env
      pure ()
  | some OtpInputResult.multi => do
    emit Act.countDigitInputs
    let arr := otp.data
    let total := min env.digitCount arr.length
    emitAll (otpDigitActions arr total)
    emit (Act.waitForNavigation 45000)
    emit (Act.press digitInputsSelector (total - 1) "Enter")
    let ok ← verifyLogin env.otpVerify step timeoutMs 10000
    if ok then pure () else do
      let _ ← clickCommonSubmit env
      pure ()

/-- The phase of `LoginToLinkedin` before the browser is created:
config resolution, credential fetch, credential extraction.  None of it
is inside a try/catch in the source, so its errors escape. -/
def linkedinPre (env : LinkedinEnv) : M (Config × LinkedinCredentials) := do
  let config ← liftE (getConfig env)
  let identityResponse ← fetchIdentityCredentials env.fetchResult config.identityId
  let credentials ← liftE (parseLinkedinCredentials identityResponse.credentials)
  pure (config, credentials)

/-- The body of the `try` block of `LoginToLinkedin`: navigate,
pre-login check (short-circuiting to Success), username, password,
optional credential re-fetch + OTP submission, final verification. -/
def linkedinBody (env : LinkedinEnv) (config : Config)
    (credentials : LinkedinCredentials) : M LoginResult := do
  navigateToHomepage env config
  let loggedIn ← verifyLogin env.precheck 2 config.timeoutMs 10000
  if loggedIn then
    pure { success := true, message := "Already authenticated. Landed on /feed." }
  else do
    enterUsername env credentials.username config.timeoutMs
    enterPasswordAndSubmit env credentials.password config.timeoutMs
    let credentials2 ←
      if credentials.otp ≠ "" then do
        let updatedCredentials ← fetchIdentityCredentials env.refetchResult config.identityId
        let c2 ← liftE (parseLinkedinCredentials updatedCredentials.credentials)
        submitOtpCode env c2.otp 6 config.timeoutMs
        pure c2
      else pure credentials
    let finalLoggedIn ← verifyLogin env.finalVerify
      (if credentials2.otp ≠ "" then 7 else 6) config.timeoutMs 10000
    if finalLoggedIn then
      pure { success := true,
             message := "Logged in to Linkedin as " ++ credentials2.username ++ "." }
    else
      pure { success := false,
             message := "Login flow completed but Linkedin Feed URL not confirmed. Current URL: "
               ++ env.finalVerify.currentUrl }

/-- `LoginToLinkedin`: config/fetch/parse and browser setup run outside
the try/catch (their errors escape as `Except.error`); the missing
context/page checks return failure results without closing; the try
body's errors are caught and converted, and the `finally` closes the
browser exactly once on those paths. -/
def LoginToLinkedin (env : LinkedinEnv) : Except String LoginResult × List Act :=
  match linkedinPre env with
  | (Except.error e, t) => (Except.error e, t)
  | (Except.ok (config, credentials), t0) =>
    match getAnchorBrowser env config (credentials.otp == "") with
    | (Except.error e, t1) => (Except.error e, t0 ++ t1)
    | (Except.ok _, t1) =>
      if !env.hasContext then
        (Except.ok { success := false, message := "Failed to get browser context" },
         t0 ++ t1)
      else if !env.hasPage then
        (Except.ok { success := false, message := "Failed to get browser page" },
         t0 ++ t1)
      else
        match linkedinBody env config credentials with
        | (Except.ok r, t2) =>
          (Except.ok r, t0 ++ t1 ++ t2 ++ [Act.closeBrowser])
        | (Except.error e, t2) =>
          (Except.ok { success := false,
                       message := if e = "" then "Unknown error during Linkedin login." else e },
           t0 ++ t1 ++ t2 ++ [Act.closeBrowser])

end Linkedin

namespace Mesh

/-- Result of `ConfigSchema.parse` in `basic-login.ts` (Mesh flow). -/
structure Config where
  sessionId : String
  apiKey : String
  identityId : String
  timeoutMs : Nat
  homeUrl : String
  meshUrl : String
  deriving DecidableEq, Repr

/-- Resolved ComplyAdvantage credentials. -/
structure ComplyAdvantageCredentials where
  organization : String
  username : String
  password : String
  deriving DecidableEq, Repr

/-- Behaviour of all collaborators for one `LoginToComplyAdvantageMesh`
run.  `openPages` models `context.pages()` as (page id, url) pairs, the
original page having id 0; `newPageResult` answers
`context.waitForEvent('page')` (which throws on timeout); `clickOk` and
`jsClickOk` answer the standard click and the JS-evaluated fallback
click of `clickWithFallback`. -/
structure MeshEnv where
  sessionIdVar : Option String
  apiKeyVar : Option String
  identityIdVar : Option String
  timeoutMsVar : Option Nat
  fetchResult : Except String IdentityResponse
  sessionResult : Except String Unit
  hasContext : Bool
  hasPage : Bool
  gotoHomeOk : Bool
  gotoHomeErr : String
  visible : String → Bool
  clickOk : String → Bool
  jsClickOk : String → Bool
  openPages : List (Nat × String)
  newPageResult : Except String Nat
  meshVerify : UrlWaitOracle

/-- `getConfig`: `ConfigSchema.parse` with `sessionId` and `apiKey`
defaulting to `''`, `identityId` required non-empty, `timeoutMs`
defaulting to `10000`, and the two fixed URLs. -/
def getConfig (env : MeshEnv) : Except String Config :=
  match env.identityIdVar with
  | none => Except.error "ANCHOR_IDENTITY_ID is required"
  | some id =>
    if id = "" then Except.error "ANCHOR_IDENTITY_ID is required"
    else Except.ok
      { sessionId := env.sessionIdVar.getD ""
        apiKey := env.apiKeyVar.getD ""
        identityId := id
        timeoutMs := env.timeoutMsVar.getD 10000
        homeUrl := "https://complyadvantage.com/"
        meshUrl := "https://mesh.complyadvantage.com/" }

/-- The case-insensitive substring match on a custom field name
(`name.toLowerCase().includes('organization') || …includes('company')`). -/
def hasOrgFieldName (n : String) : Bool :=
  strContains (lowerStr n) "organization" || strContains (lowerStr n) "company"

/-- `parseComplyAdvantageCredentials`: the `credentials.forEach` scan. -/
def meshScan (credentials : List Cred) : ComplyAdvantageCredentials :=
  credentials.foldl
    (fun st c =>
      match c with
      | Cred.username_password u p => { st with username := u, password := p }
      | Cred.authenticator _ => st
      | Cred.custom fields =>
        match fields.find? (fun f => hasOrgFieldName f.name) with
        | some f => { st with organization := f.value }
        | none => st)
    { organization := "", username := "", password := "" }

/-- `parseComplyAdvantageCredentials`: throws when organization,
username or password is empty after the scan, with the message naming
each field's presence. -/
def parseComplyAdvantageCredentials (credentials : List Cred) :
    Except String ComplyAdvantageCredentials :=
  let st := meshScan credentials
  if st.organization = "" ∨ st.username = "" ∨ st.password = "" then
    Except.error ("Missing required credentials. Found: organization="
      ++ truthy st.organization ++ ", username=" ++ truthy st.username
      ++ ", password=" ++ truthy st.password)
  else
    Except.ok st

/-- `validateRequiredInputs`: parse the config (which itself can throw
on a missing identity id), then reject blank identity id or api key. -/
def validateRequiredInputs (env : MeshEnv) : Except String Unit := do
  let config ← getConfig env
  if trimStr config.identityId = "" then
    Except.error "Missing required input ANCHOR_IDENTITY_ID. Please set ANCHOR_IDENTITY_ID environment variable."
  else if trimStr config.apiKey = "" then
    Except.error "Missing required input ANCHOR_API_KEY. Please set ANCHOR_API_KEY environment variable."
  else Except.ok ()

/-- `fetchIdentityCredentials` (Mesh flow). -/
def fetchIdentityCredentials (result : Except String IdentityResponse)
    (identityId : String) : M IdentityResponse := do
  emit (Act.fetchCredentials identityId)
  liftE result

/-- The fetch-and-extract phase inside the second try/catch of
`LoginToComplyAdvantageMesh`. -/
def meshFetchPhase (env : MeshEnv) : M ComplyAdvantageCredentials := do
  let config ← liftE (getConfig env)
  let identityResponse ← fetchIdentityCredentials env.fetchResult config.identityId
  liftE (parseComplyAdvantageCredentials identityResponse.credentials)

/-- `getAnchorBrowser` (Mesh flow): connect when `sessionId` is truthy,
otherwise `create()` with no options. -/
def getAnchorBrowser (env : MeshEnv) (config : Config) : M Unit := do
  if config.sessionId ≠ "" then do
    emit (Act.connectSession config.sessionId)
    liftE env.sessionResult
  else do
    emit (Act.createSession false)
    liftE env.sessionResult

/-- `clickWithFallback`: wait for visibility (throwing on timeout),
scroll to top, try the standard click, then the JS-evaluate click. -/
def clickWithFallback (env : MeshEnv) (config : Config)
    (selector : String) : M Bool := do
  waitForVisibleM env.visible selector config.timeoutMs
  emit Act.scrollTop
  emit (Act.click selector 0)
  if env.clickOk selector then pure true
  else do
    emit (Act.jsClick selector)
    if env.jsClickOk selector then pure true else pure false

/-- `navigateToHomepage` (Mesh flow): `page.goto(homeUrl)`; on error
rethrow unless `#login-nav-button` is visible. -/
def navigateToHomepage (env : MeshEnv) (config : Config) : M Unit := do
  emit (Act.navigate config.homeUrl config.timeoutMs)
  if env.gotoHomeOk then pure ()
  else do
    emit (Act.isVisibleCheck "#login-nav-button")
    if env.visible "#login-nav-button" then pure ()
    else M.fail env.gotoHomeErr

/-- The accept control probed inside the `#notice` cookie banner. -/
def acceptAllSelector : String :=
  "button[title=\x27Accept all\x27], button[aria-label=\x27Accept all\x27]"

/-- `dismissCookieBanner`: optional step; never throws (everything is
wrapped in try/catch and the probes use `.catch(() => false)`). -/
def dismissCookieBanner (env : MeshEnv) : M Unit := do
  emit (Act.isVisibleCheck "#notice")
  if env.visible "#notice" then do
    emit (Act.isVisibleCheck acceptAllSelector)
    if env.visible acceptAllSelector then do
      emit (Act.click acceptAllSelector 0)
      pure ()
    else pure ()
  else pure ()

/-- The combined login-modal detection selector. -/
def loginModalSelector : String := "#mesh-li-modal-button, #loginModal"

/-- `openLoginModal`: click the login button (the inner
`clickWithFallback` may still throw if the button never becomes
visible); when the click or the modal detection fails, navigate
directly to the Mesh URL (errors of that navigation swallowed). -/
def openLoginModal (env : MeshEnv) (config : Config) : M Bool := do
  let clicked ← clickWithFallback env config "#login-nav-button"
  if !clicked then do
    emit (Act.navigate config.meshUrl config.timeoutMs)
    pure false
  else do
    emit (Act.isVisibleCheck loginModalSelector)
    if env.visible loginModalSelector then pure true
    else do
      emit (Act.navigate config.meshUrl config.timeoutMs)
      pure false

/-- The `/complyadvantage|auth0|mesh/i` URL test of the auth-page
fallback scan. -/
def authUrlTest (url : String) : Bool :=
  strContains (lowerStr url) "complyadvantage" || strContains (lowerStr url) "auth0"
    || strContains (lowerStr url) "mesh"

/-- `selectMeshLoginOption`: take an already-open second tab if any;
otherwise click the Mesh button raced with `waitForEvent('page')`
(which throws on timeout); otherwise scan open pages for an
auth-looking URL, defaulting to the original page (id 0). -/
def selectMeshLoginOption (env : MeshEnv) (config : Config) : M Nat := do
  match env.openPages.find? (fun p => p.1 != 0) with
  | some p => pure p.1
  | none => do
    emit (Act.isVisibleCheck "#mesh-li-modal-button")
    if env.visible "#mesh-li-modal-button" then do
      emit (Act.waitForNewPage config.timeoutMs)
      emit (Act.click "#mesh-li-modal-button" 0)
      liftE env.newPageResult
    else
      match env.openPages.find? (fun p => authUrlTest p.2) with
      | some p => pure p.1
      | none => pure 0

/-- `waitForAuth0Page`: wait for the Auth0 URL; both outcomes proceed
(the catch only logs). -/
def waitForAuth0Page (_env : MeshEnv) (config : Config) : M Unit := do
  emit (Act.waitForUrl "**auth0.com/**" config.timeoutMs)
  pure ()

/-- `enterOrganization`: optional step, 7s visibility wait; fill and
submit-by-Enter when present, silently skip otherwise. -/
def enterOrganization (env : MeshEnv) (organization : String) : M Unit := do
  emit (Act.waitVisibleFor "#organizationName" 7000)
  if env.visible "#organizationName" then do
    emit (Act.fill "#organizationName" 0 organization)
    emit (Act.press "#organizationName" 0 "Enter")
    pure ()
  else pure ()

/-- `enterUsername` (Mesh flow): required; wait, fill, Enter. -/
def enterUsername (env : MeshEnv) (config : Config) (username : String) : M Unit := do
  waitForVisibleM env.visible "#username" config.timeoutMs
  emit (Act.fill "#username" 0 username)
  emit (Act.press "#username" 0 "Enter")

/-- `enterPassword` (Mesh flow): required; wait, fill, Enter. -/
def enterPassword (env : MeshEnv) (config : Config) (password : String) : M Unit := do
  waitForVisibleM env.visible "#password" config.timeoutMs
  emit (Act.fill "#password" 0 password)
  emit (Act.press "#password" 0 "Enter")

/-- The glob pattern of the Mesh success verification. -/
def meshUrlPattern : String := "**mesh.complyadvantage.com/**"

/-- `verifyMeshLogin`: wait for the Mesh URL with timeout
`max(timeoutMs, 60000)`; on timeout re-check `page.url()` against
`/mesh\.complyadvantage\.com\//` once. -/
def verifyMeshLogin (env : MeshEnv) (config : Config) : M Bool := do
  emit (Act.waitForUrl meshUrlPattern (max config.timeoutMs 60000))
  if env.meshVerify.waitOk then pure true
  else do
    emit Act.currentUrlCheck
    pure (strContains env.meshVerify.currentUrl "mesh.complyadvantage.com/")

/-- The body of the `try` block of `LoginToComplyAdvantageMesh`. -/
def meshBody (env : MeshEnv) (config : Config)
    (credentials : ComplyAdvantageCredentials) : M LoginResult := do
  navigateToHomepage env config
  dismissCookieBanner env
  let _ ← openLoginModal env config
  let _authPage ← selectMeshLoginOption env config
  waitForAuth0Page env config
  enterOrganization env credentials.organization
  enterUsername env config credentials.username
  enterPassword env config credentials.password
  let meshReached ← verifyMeshLogin env config
  if meshReached then
    pure { success := true,
           message := "Logged in to ComplyAdvantage Mesh as " ++ credentials.username
             ++ " (org: " ++ credentials.organization ++ ")." }
  else
    pure { success := false,
           message := "Login flow completed but Mesh URL not confirmed. Current URL: "
             ++ env.meshVerify.currentUrl }

/-- `LoginToComplyAdvantageMesh`: input validation and the
fetch/extract phase each have their own try/catch converting errors to
failure results; browser setup is not caught (its errors escape); the
missing context/page checks return without closing; the try body's
errors are caught, and the `finally` closes the browser exactly once
on those paths. -/
def LoginToComplyAdvantageMesh (env : MeshEnv) :
    Except String LoginResult × List Act :=
  match validateRequiredInputs env with
  | Except.error e =>
    (Except.ok { success := false,
                 message := if e = "" then "Missing required inputs" else e }, [])
  | Except.ok _ =>
    match meshFetchPhase env with
    | (Except.error e, t0) =>
      (Except.ok { success := false,
                   message := if e = "" then "Failed to fetch credentials" else e }, t0)
    | (Except.ok credentials, t0) =>
      match getConfig env with
      | Except.error e => (Except.error e, t0)
      | Except.ok config =>
        match getAnchorBrowser env config with
        | (Except.error e, t1) => (Except.error e, t0 ++ t1)
        | (Except.ok _, t1) =>
          if !env.hasContext then
            (Except.ok { success := false, message := "Failed to get browser context" },
             t0 ++ t1)
          else if !env.hasPage then
            (Except.ok { success := false, message := "Failed to get browser page" },
             t0 ++ t1)
          else
            match meshBody env config credentials with
            | (Except.ok r, t2) =>
              (Except.ok r, t0 ++ t1 ++ t2 ++ [Act.closeBrowser])
            | (Except.error e, t2) =>
              (Except.ok { success := false,
                           message := if e = "" then "Unknown error during Mesh login." else e },
               t0 ++ t1 ++ t2 ++ [Act.closeBrowser])

end Mesh

namespace Agent

/-- The credential provider response used by `loginWithAgent` (it reads
`credentials.source` to build the target URL). -/
structure AgentIdentityResponse where
  source : String
  credentials : List Cred
  deriving DecidableEq, Repr

/-- Result of `ConfigSchema.parse` in the agent-based login module:
both `sessionId` and `identityId` are required non-empty. -/
structure Config where
  sessionId : String
  identityId : String
  deriving DecidableEq, Repr

/-- Collaborator behaviour for one `loginWithAgent` run. -/
structure AgentEnv where
  sessionIdVar : Option String
  identityIdVar : Option String
  fetchResult : Except String AgentIdentityResponse
  connectResult : Except String Unit
  agentTaskResult : Except String Unit

/-- `getConfig` of the agent module. -/
def getConfig (env : AgentEnv) : Except String Config :=
  match env.sessionIdVar with
  | none => Except.error "ANCHOR_SESSION_ID is required"
  | some sid =>
    if sid = "" then Except.error "ANCHOR_SESSION_ID is required"
    else
      match env.identityIdVar with
      | none => Except.error "ANCHOR_IDENTITY_ID is required"
      | some id =>
        if id = "" then Except.error "ANCHOR_IDENTITY_ID is required"
        else Except.ok { sessionId := sid, identityId := id }

/-- Everything inside the try block of `loginWithAgent`: config,
credential fetch, session connect, agent task, placeholder success. -/
def agentAttempt (env : AgentEnv) : M LoginResult := do
  let config ← liftE (getConfig env)
  emit (Act.fetchCredentials config.identityId)
  let _credentials ← liftE env.fetchResult
  emit (Act.connectSession config.sessionId)
  liftE env.connectResult
  emit Act.agentTask
  liftE env.agentTaskResult
  pure { success := true, message := "Agent-based login placeholder" }

/-- `loginWithAgent`: the whole body is inside one try/catch, so every
error is converted into a failure result. -/
def loginWithAgent (env : AgentEnv) : Except String LoginResult × List Act :=
  match agentAttempt env with
  | (Except.ok r, t) => (Except.ok r, t)
  | (Except.error e, t) =>
    (Except.ok { success := false,
                 message := if e = "" then "Agent-based login failed" else e }, t)

end Agent

/-! ## Claim-support definitions: trace predicates and concrete collaborator behaviours -/

/-- The primary password submit of the LinkedIn flow: pressing Enter on
the password field. -/
def isPwdSubmit (a : Act) : Bool :=
  match a with
  | Act.press sel _ key => sel == Linkedin.passwordSelector && key == "Enter"
  | _ => false

/-- Selectors that denote OTP input fields of the LinkedIn flow. -/
def isOtpField (sel : String) : Bool :=
  Linkedin.singleOtpSelectors.contains sel || sel == Linkedin.digitInputsSelector

/-- An OTP key-press submit: Enter pressed on an OTP field. -/
def isOtpKeySubmit (a : Act) : Bool :=
  match a with
  | Act.press sel _ key => key == "Enter" && isOtpField sel
  | _ => false

/-- Any click action (standard or JS-evaluated). -/
def isClickAct (a : Act) : Bool :=
  match a with
  | Act.click _ _ => true
  | Act.jsClick _ => true
  | _ => false

/-- A click that does NOT target one of the generic
submit/verify/continue controls of `clickCommonSubmit` (or any
JS-evaluated click): never performed by the LinkedIn flow. -/
def isBadClick (a : Act) : Bool :=
  match a with
  | Act.click sel _ => !(Linkedin.submitSelectors.contains sel)
  | Act.jsClick _ => true
  | _ => false

/-- The browser-close action. -/
def isCloseAct (a : Act) : Bool :=
  match a with
  | Act.closeBrowser => true
  | _ => false

/-- Any submit action of the LinkedIn flow: the password key-submit,
an OTP key-submit, or a click. -/
def isSubmitAct (a : Act) : Bool := isPwdSubmit a || isOtpKeySubmit a || isClickAct a

/-- A credential-provider fetch. -/
def isFetchAct (a : Act) : Bool :=
  match a with
  | Act.fetchCredentials _ => true
  | _ => false

/-- A session-provisioner call (connect or create). -/
def isSessionAct (a : Act) : Bool :=
  match a with
  | Act.connectSession _ => true
  | Act.createSession _ => true
  | _ => false

/-- A `waitForURL` wait. -/
def isWaitUrlAct (a : Act) : Bool :=
  match a with
  | Act.waitForUrl _ _ => true
  | _ => false

/-- A page navigation. -/
def isNavigateAct (a : Act) : Bool :=
  match a with
  | Act.navigate _ _ => true
  | _ => false

/-- Any page-driver call at all (everything except credential fetches,
session-provisioner calls and the browser close). -/
def isPageAct (a : Act) : Bool :=
  match a with
  | Act.fetchCredentials _ => false
  | Act.connectSession _ => false
  | Act.createSession _ => false
  | Act.agentTask => false
  | Act.closeBrowser => false
  | _ => true

/-- The action touches (waits for, probes, fills, types into, presses a
key on, or clicks) the field identified by `sel`. -/
def touches (sel : String) (a : Act) : Bool :=
  match a with
  | Act.waitVisibleFor s _ => s == sel
  | Act.fill s _ _ => s == sel
  | Act.typeText s _ _ => s == sel
  | Act.press s _ _ => s == sel
  | Act.click s _ => s == sel
  | Act.jsClick s => s == sel
  | Act.isVisibleCheck s => s == sel
  | _ => false

/-- The Bool `verifyLogin` returns, as a function of its oracle. -/
def feedCheck (o : UrlWaitOracle) : Bool :=
  o.waitOk || strContains o.currentUrl "linkedin.com/feed/"

/-- The Bool `verifyMeshLogin` returns, as a function of its oracle. -/
def meshCheck (o : UrlWaitOracle) : Bool :=
  o.waitOk || strContains o.currentUrl "mesh.complyadvantage.com/"

/-- The visibility probes of `clickCommonSubmit`, in declared order. -/
def Linkedin.submitProbes : List Act := Linkedin.submitSelectors.map Act.isVisibleCheck

/-- The visibility probes of the single-field OTP selectors, in
declared order. -/
def Linkedin.singleProbes : List Act := Linkedin.singleOtpSelectors.map Act.isVisibleCheck

/-- The page actions of a main-path LinkedIn attempt up to and
including the password submission: navigation, the pre-login check
(wait plus the on-timeout URL re-check), username entry, password
entry and key-submit. -/
def Linkedin.linkedinOtpPrefix (env : Linkedin.LinkedinEnv) (config : Linkedin.Config)
    (creds : Linkedin.LinkedinCredentials) : List Act :=
  [Act.navigate config.homeUrl config.timeoutMs,
   Act.waitForUrl Linkedin.feedUrlPattern (max config.timeoutMs 10000)]
  ++ (if env.precheck.waitOk then [] else [Act.currentUrlCheck])
  ++ [Act.waitVisibleFor Linkedin.usernameSelector config.timeoutMs,
      Act.fill Linkedin.usernameSelector 0 creds.username,
      Act.press Linkedin.usernameSelector 0 "Tab",
      Act.waitVisibleFor Linkedin.passwordSelector config.timeoutMs,
      Act.fill Linkedin.passwordSelector 0 creds.password,
      Act.press Linkedin.passwordSelector 0 "Enter"]

/-- A collaborator visibility behaviour where exactly the username and
password fields are visible. -/
def happyVisible : String → Bool := fun s =>
  s == Linkedin.usernameSelector || s == Linkedin.passwordSelector

/-- A fully cooperative collaborator behaviour for the LinkedIn flow:
valid config, a username/password bundle without OTP, a fresh session,
failed pre-login check, visible login fields, and a terminal URL wait
that succeeds. -/
def baseLinkedinEnv : Linkedin.LinkedinEnv :=
  { sessionIdVar := none
    identityIdVar := some "id1"
    timeoutMsVar := none
    fetchResult := Except.ok { name := "Ada", credentials := [Cred.username_password "u" "p"] }
    refetchResult := Except.ok { name := "Ada", credentials := [Cred.username_password "u" "p"] }
    sessionResult := Except.ok ()
    hasContext := true
    hasPage := true
    gotoHomeOk := true
    gotoHomeErr := "nav failed"
    visible := happyVisible
    digitCount := 0
    precheck := { waitOk := false, currentUrl := "https://www.linkedin.com/uas/login" }
    otpVerify := { waitOk := false, currentUrl := "about:blank" }
    finalVerify := { waitOk := true, currentUrl := "https://www.linkedin.com/feed/" } }

/-- A behaviour whose credential bundle has a username but an empty
password, so extraction fails. -/
def noPasswordLinkedinEnv : Linkedin.LinkedinEnv :=
  { baseLinkedinEnv with
    fetchResult := Except.ok { name := "Ada", credentials := [Cred.username_password "u" ""] } }

/-- A behaviour whose pre-login check already matches the
authenticated-area URL pattern. -/
def alreadyLoggedInEnv : Linkedin.LinkedinEnv :=
  { baseLinkedinEnv with
    precheck := { waitOk := true, currentUrl := "https://www.linkedin.com/feed/" } }

/-- A behaviour where the attempt completes but the terminal URL wait
times out and the re-check also fails. -/
def slowRedirectEnv : Linkedin.LinkedinEnv :=
  { baseLinkedinEnv with
    finalVerify := { waitOk := false, currentUrl := "https://www.linkedin.com/uas/login" } }

/-- A behaviour where the session is created but the browser has no
context. -/
def noContextEnv : Linkedin.LinkedinEnv :=
  { baseLinkedinEnv with hasContext := false }

/-- An OTP bundle behaviour: six digit boxes visible and a refreshed
bundle whose extraction fails (password missing on re-fetch). -/
def otpRefetchBrokenEnv : Linkedin.LinkedinEnv :=
  { baseLinkedinEnv with
    fetchResult :=
      Except.ok ⟨"Ada", [Cred.username_password "u" "p", Cred.authenticator (some "111222")]⟩
    refetchResult := Except.ok ⟨"Ada", [Cred.authenticator (some "654321")]⟩
    digitCount := 6 }

/-- An OTP bundle behaviour whose refreshed bundle is valid and carries
a different OTP; six digit boxes are visible, the OTP verify fails and
a generic submit button is visible for the fallback click. -/
def otpMultiEnv : Linkedin.LinkedinEnv :=
  { baseLinkedinEnv with
    fetchResult :=
      Except.ok ⟨"Ada", [Cred.username_password "u" "p", Cred.authenticator (some "111222")]⟩
    refetchResult :=
      Except.ok ⟨"Ada", [Cred.username_password "u" "p", Cred.authenticator (some "654321")]⟩
    digitCount := 6
    finalVerify := { waitOk := false, currentUrl := "https://www.linkedin.com/checkpoint/" }
    visible := fun s =>
      s == Linkedin.usernameSelector || s == Linkedin.passwordSelector
        || s == "button[type=\"submit\"]" }

/-- An OTP behaviour where a single combined code field is visible. -/
def otpSingleEnv : Linkedin.LinkedinEnv :=
  { otpMultiEnv with
    visible := fun s =>
      s == Linkedin.usernameSelector || s == Linkedin.passwordSelector
        || s == "input[name=\"code\"]" }

/-- An OTP behaviour where neither OTP layout is present. -/
def otpMissingEnv : Linkedin.LinkedinEnv :=
  { otpRefetchBrokenEnv with
    refetchResult :=
      Except.ok ⟨"Ada", [Cred.username_password "u" "p", Cred.authenticator (some "654321")]⟩
    digitCount := 0 }

/-- A behaviour where two submit-control selectors are visible at once
(the "Verify" text button and the generic `button[type="submit"]`). -/
def twoSubmitsEnv : Linkedin.LinkedinEnv :=
  { baseLinkedinEnv with
    visible := fun s =>
      s == "button:has-text(\"Verify\")" || s == "button[type=\"submit\"]" }

/-- A fully cooperative collaborator behaviour for the Mesh flow. -/
def baseMeshEnv : Mesh.MeshEnv :=
  { sessionIdVar := none
    apiKeyVar := some "key1"
    identityIdVar := some "id1"
    timeoutMsVar := none
    fetchResult :=
      Except.ok ⟨"Ada", [Cred.username_password "u" "p",
        Cred.custom [⟨"Organization Name", "org1"⟩]]⟩
    sessionResult := Except.ok ()
    hasContext := true
    hasPage := true
    gotoHomeOk := true
    gotoHomeErr := "nav failed"
    visible := fun s => s == "#login-nav-button" || s == "#mesh-li-modal-button, #loginModal"
      || s == "#username" || s == "#password"
    clickOk := fun _ => true
    jsClickOk := fun _ => true
    openPages := [(0, "https://complyadvantage.com/")]
    newPageResult := Except.error "Timeout waiting for event page"
    meshVerify := { waitOk := true, currentUrl := "https://mesh.complyadvantage.com/" } }

/-- A Mesh behaviour whose bundle has username and password but no
organization field, so extraction fails although both of the fields the
claim calls required are present. -/
def noOrgMeshEnv : Mesh.MeshEnv :=
  { baseMeshEnv with
    fetchResult := Except.ok ⟨"Ada", [Cred.username_password "u" "p"]⟩ }

/-- A LinkedIn behaviour where the session is created and a context
exists but the browser has no page. -/
def noPageLinkedinEnv : Linkedin.LinkedinEnv :=
  { baseLinkedinEnv with hasPage := false }

/-- A Mesh behaviour where the session is created but the browser has
no context. -/
def noContextMeshEnv : Mesh.MeshEnv :=
  { baseMeshEnv with hasContext := false }

/-- A Mesh behaviour where the session is created and a context exists
but the browser has no page. -/
def noPageMeshEnv : Mesh.MeshEnv :=
  { baseMeshEnv with hasPage := false }

/-- A fully cooperative behaviour for the agent flow. -/
def baseAgentEnv : Agent.AgentEnv :=
  { sessionIdVar := some "sess1"
    identityIdVar := some "id1"
    fetchResult := Except.ok { source := "example.com", credentials := [] }
    connectResult := Except.ok ()
    agentTaskResult := Except.ok () }

/-! ## Generic lemmas about the embedding monad -/

@[simp] theorem M.bind_def {α β : Type} (x : M α) (f : α → M β) :
    x >>= f = M.bindM x f := rfl

@[simp] theorem M.pure_def {α : Type} (a : α) :
    (pure a : M α) = (Except.ok a, []) := rfl

@[simp] theorem M.bindM_ok {α β : Type} (a : α) (t : List Act) (f : α → M β) :
    M.bindM (Except.ok a, t) f = ((f a).1, t ++ (f a).2) := rfl

@[simp] theorem M.bindM_error {α β : Type} (e : String) (t : List Act) (f : α → M β) :
    M.bindM (Except.error e, t) f = (Except.error e, t) := rfl

theorem M.countP_bindM (p : Act → Bool) {α β : Type} (x : M α) (f : α → M β)
    (m n : Nat) (hx : x.2.countP p ≤ m) (hf : ∀ a, ((f a).2).countP p ≤ n) :
    ((M.bindM x f).2).countP p ≤ m + n := by
  rcases x with ⟨e | a, t⟩
  · simpa [M.bindM] using le_trans hx (Nat.le_add_right m n)
  · simpa [M.bindM, List.countP_append] using Nat.add_le_add hx (hf a)

theorem M.countP_bindM_zero (p : Act → Bool) {α β : Type} (x : M α) (f : α → M β)
    (hx : x.2.countP p = 0) (hf : ∀ a, ((f a).2).countP p = 0) :
    ((M.bindM x f).2).countP p = 0 := by
  rcases x with ⟨e | a, t⟩
  · simpa [M.bindM] using hx
  · simp [M.bindM, List.countP_append, hx, hf a]

/-! ## Trace characterizations of the LinkedIn step functions -/

theorem waitForVisibleM_eq (vis : String → Bool) (sel : String) (t : Nat) :
    waitForVisibleM vis sel t =
      ((if vis sel then Except.ok () else
          Except.error ("Timeout waiting for selector " ++ sel)),
       [Act.waitVisibleFor sel t]) := by
  by_cases h : vis sel <;> simp [waitForVisibleM, emit, M.fail, h]

namespace Linkedin

theorem verifyLogin_eq (o : UrlWaitOracle) (step t fb : Nat) :
    verifyLogin o step t fb =
      (Except.ok (feedCheck o),
       Act.waitForUrl feedUrlPattern (max t fb) ::
         (if o.waitOk then [] else [Act.currentUrlCheck])) := by
  by_cases h : o.waitOk <;> simp [verifyLogin, emit, feedCheck, h]

theorem navigateToHomepage_eq (env : LinkedinEnv) (config : Config) :
    navigateToHomepage env config =
      (if env.gotoHomeOk then
        (Except.ok (), [Act.navigate config.homeUrl config.timeoutMs])
       else if env.visible "#login-nav-button" then
        (Except.ok (), [Act.navigate config.homeUrl config.timeoutMs,
                        Act.isVisibleCheck "#login-nav-button"])
       else
        (Except.error env.gotoHomeErr,
         [Act.navigate config.homeUrl config.timeoutMs,
          Act.isVisibleCheck "#login-nav-button"])) := by
  by_cases h1 : env.gotoHomeOk <;> by_cases h2 : env.visible "#login-nav-button" <;>
    simp [navigateToHomepage, emit, M.fail, h1, h2]

theorem enterUsername_eq (env : LinkedinEnv) (u : String) (t : Nat) :
    enterUsername env u t =
      (if env.visible usernameSelector then
        (Except.ok (), [Act.waitVisibleFor usernameSelector t,
                        Act.fill usernameSelector 0 u,
                        Act.press usernameSelector 0 "Tab"])
       else
        (Except.error ("Timeout waiting for selector " ++ usernameSelector),
         [Act.waitVisibleFor usernameSelector t])) := by
  by_cases h : env.visible usernameSelector <;>
    simp [enterUsername, waitForVisibleM_eq, emit, h]

theorem enterPasswordAndSubmit_eq (env : LinkedinEnv) (pw : String) (t : Nat) :
    enterPasswordAndSubmit env pw t =
      (if env.visible passwordSelector then
        (Except.ok (), [Act.waitVisibleFor passwordSelector t,
                        Act.fill passwordSelector 0 pw,
                        Act.press passwordSelector 0 "Enter"])
       else
        (Except.error ("Timeout waiting for selector " ++ passwordSelector),
         [Act.waitVisibleFor passwordSelector t])) := by
  by_cases h : env.visible passwordSelector <;>
    simp [enterPasswordAndSubmit, waitForVisibleM_eq, emit, h]

theorem getAnchorBrowser_eq (env : LinkedinEnv) (config : Config) (es : Bool) :
    getAnchorBrowser env config es =
      (env.sessionResult,
       [if config.sessionId = "" then Act.createSession es
        else Act.connectSession config.sessionId]) := by
  by_cases h : config.sessionId = "" <;>
    simp [getAnchorBrowser, emit, liftE, h]

theorem fetchIdentityCredentials_eq (r : Except String IdentityResponse) (id : String) :
    fetchIdentityCredentials r id = (r, [Act.fetchCredentials id]) := by
  simp [fetchIdentityCredentials, emit, liftE]

theorem clickCommonSubmit_some (env : LinkedinEnv) (sel : String)
    (h : submitSelectors.find? env.visible = some sel) :
    clickCommonSubmit env =
      (Except.ok true,
       submitProbes ++ [Act.waitForNavigation 45000, Act.click sel 0]) := by
  simp [clickCommonSubmit, emitAll, emit, h, submitProbes]

theorem clickCommonSubmit_none (env : LinkedinEnv)
    (h : submitSelectors.find? env.visible = none) :
    clickCommonSubmit env = (Except.ok false, submitProbes) := by
  simp [clickCommonSubmit, emitAll, h, submitProbes]

theorem locateOtpInputs_single (env : LinkedinEnv) (sel : String)
    (h : singleOtpSelectors.find? env.visible = some sel) :
    locateOtpInputs env =
      (Except.ok (some (OtpInputResult.single sel)), singleProbes) := by
  simp [locateOtpInputs, emitAll, h, singleProbes]

theorem locateOtpInputs_multi (env : LinkedinEnv)
    (h : singleOtpSelectors.find? env.visible = none) (hd : 6 ≤ env.digitCount) :
    locateOtpInputs env =
      (Except.ok (some OtpInputResult.multi),
       singleProbes ++ [Act.countDigitInputs]) := by
  simp [locateOtpInputs, emitAll, emit, h, hd, singleProbes]

theorem locateOtpInputs_none (env : LinkedinEnv)
    (h : singleOtpSelectors.find? env.visible = none) (hd : env.digitCount < 6) :
    locateOtpInputs env =
      (Except.ok none, singleProbes ++ [Act.countDigitInputs]) := by
  simp [locateOtpInputs, emitAll, emit, h, Nat.not_le.mpr hd, singleProbes]

theorem bindM_click_discard (env : LinkedinEnv) :
    M.bindM (clickCommonSubmit env) (fun _ => ((Except.ok (), []) : M Unit))
      = (Except.ok (), (clickCommonSubmit env).2) := by
  rcases h : submitSelectors.find? env.visible with _ | s <;>
    simp [clickCommonSubmit_none, clickCommonSubmit_some, h]

theorem submitOtpCode_single (env : LinkedinEnv) (otp : String) (step t : Nat) (sel : String)
    (h : singleOtpSelectors.find? env.visible = some sel) :
    submitOtpCode env otp step t =
      (Except.ok (),
       singleProbes
         ++ [Act.fill sel 0 "", Act.fill sel 0 otp,
             Act.waitForNavigation 45000, Act.press sel 0 "Enter",
             Act.waitForUrl feedUrlPattern (max t 10000)]
         ++ (if env.otpVerify.waitOk then [] else [Act.currentUrlCheck])
         ++ (if feedCheck env.otpVerify then [] else (clickCommonSubmit env).2)) := by
  by_cases hv : env.otpVerify.waitOk <;>
  by_cases hc : strContains env.otpVerify.currentUrl "linkedin.com/feed/" <;>
    simp [submitOtpCode, locateOtpInputs_single, h, verifyLogin_eq, emit,
      bindM_click_discard, feedCheck, hv, hc]

theorem submitOtpCode_multi (env : LinkedinEnv) (otp : String) (step t : Nat)
    (h : singleOtpSelectors.find? env.visible = none) (hd : 6 ≤ env.digitCount) :
    submitOtpCode env otp step t =
      (Except.ok (),
       singleProbes ++ [Act.countDigitInputs, Act.countDigitInputs]
         ++ otpDigitActions otp.data (min env.digitCount otp.data.length)
         ++ [Act.waitForNavigation 45000,
             Act.press digitInputsSelector (min env.digitCount otp.data.length - 1) "Enter",
             Act.waitForUrl feedUrlPattern (max t 10000)]
         ++ (if env.otpVerify.waitOk then [] else [Act.currentUrlCheck])
         ++ (if feedCheck env.otpVerify then [] else (clickCommonSubmit env).2)) := by
  by_cases hv : env.otpVerify.waitOk <;>
  by_cases hc : strContains env.otpVerify.currentUrl "linkedin.com/feed/" <;>
    simp [submitOtpCode, locateOtpInputs_multi, h, hd, verifyLogin_eq, emit, emitAll,
      bindM_click_discard, feedCheck, hv, hc]

theorem submitOtpCode_none (env : LinkedinEnv) (otp : String) (step t : Nat)
    (h : singleOtpSelectors.find? env.visible = none) (hd : env.digitCount < 6) :
    submitOtpCode env otp step t =
      (Except.error "OTP inputs not found", singleProbes ++ [Act.countDigitInputs]) := by
  simp [submitOtpCode, locateOtpInputs_none, h, hd, M.fail]

theorem linkedinPre_eq (env : LinkedinEnv) :
    linkedinPre env =
      match getConfig env with
      | Except.error e => (Except.error e, [])
      | Except.ok config =>
        match env.fetchResult with
        | Except.error e => (Except.error e, [Act.fetchCredentials config.identityId])
        | Except.ok resp =>
          match parseLinkedinCredentials resp.credentials with
          | Except.error e => (Except.error e, [Act.fetchCredentials config.identityId])
          | Except.ok creds =>
            (Except.ok (config, creds), [Act.fetchCredentials config.identityId]) := by
  rcases hc : getConfig env with e | config
  · simp [linkedinPre, liftE, hc]
  · rcases hf : env.fetchResult with e2 | resp
    · simp [linkedinPre, liftE, fetchIdentityCredentials_eq, hc, hf]
    · rcases hp : parseLinkedinCredentials resp.credentials with e3 | creds <;>
        simp [linkedinPre, liftE, fetchIdentityCredentials_eq, hc, hf, hp]

end Linkedin

/-! ## Counting collaborator actions in the LinkedIn traces -/

theorem countP_probes_zero (p : Act → Bool) (l : List String)
    (hp : ∀ s, p (Act.isVisibleCheck s) = false) :
    (l.map Act.isVisibleCheck).countP p = 0 := by
  induction l with
  | nil => simp
  | cons s l ih => simp [hp, ih]

namespace Linkedin

theorem mem_otpDigitActions {arr : List Char} {total : Nat} {a : Act}
    (h : a ∈ otpDigitActions arr total) :
    (∃ i v, a = Act.fill digitInputsSelector i v) ∨
    (∃ i v, a = Act.typeText digitInputsSelector i v) := by
  simp only [otpDigitActions, List.mem_flatMap, List.mem_range] at h
  obtain ⟨i, _, hcase⟩ := h
  simp only [List.mem_cons, List.mem_singleton] at hcase
  rcases hcase with rfl | rfl | hfalse
  · exact Or.inl ⟨i, _, rfl⟩
  · exact Or.inr ⟨i, _, rfl⟩
  · simp at hfalse

theorem countP_otpDigitActions_zero (p : Act → Bool) (arr : List Char) (total : Nat)
    (hf : ∀ i v, p (Act.fill digitInputsSelector i v) = false)
    (ht : ∀ i v, p (Act.typeText digitInputsSelector i v) = false) :
    (otpDigitActions arr total).countP p = 0 := by
  refine List.countP_eq_zero.mpr ?_
  intro a ha
  rcases mem_otpDigitActions ha with ⟨i, v, rfl⟩ | ⟨i, v, rfl⟩ <;> simp [hf, ht]

theorem countP_nav_zero (p : Act → Bool) (env : LinkedinEnv) (config : Config)
    (h1 : ∀ u t, p (Act.navigate u t) = false)
    (h2 : ∀ s, p (Act.isVisibleCheck s) = false) :
    ((navigateToHomepage env config).2).countP p = 0 := by
  rw [navigateToHomepage_eq]
  split_ifs <;> simp [h1, h2]

theorem countP_verify_zero (p : Act → Bool) (o : UrlWaitOracle) (step t fb : Nat)
    (h1 : ∀ pat k, p (Act.waitForUrl pat k) = false)
    (h2 : p Act.currentUrlCheck = false) :
    ((verifyLogin o step t fb).2).countP p = 0 := by
  rw [verifyLogin_eq]
  split_ifs <;> simp [h1, h2]

theorem countP_user_zero (p : Act → Bool) (env : LinkedinEnv) (u : String) (t : Nat)
    (h1 : ∀ s k, p (Act.waitVisibleFor s k) = false)
    (h2 : ∀ s i v, p (Act.fill s i v) = false)
    (h3 : p (Act.press usernameSelector 0 "Tab") = false) :
    ((enterUsername env u t).2).countP p = 0 := by
  rw [enterUsername_eq]
  split_ifs <;> simp [h1, h2, h3]

theorem countP_pwd_le (p : Act → Bool) (env : LinkedinEnv) (pw : String) (t : Nat)
    (h1 : ∀ s k, p (Act.waitVisibleFor s k) = false)
    (h2 : ∀ s i v, p (Act.fill s i v) = false) :
    ((enterPasswordAndSubmit env pw t).2).countP p ≤ 1 := by
  rw [enterPasswordAndSubmit_eq]
  split_ifs <;> simp [h1, h2, List.countP_cons] <;> split_ifs <;> simp

theorem countP_pwd_zero (p : Act → Bool) (env : LinkedinEnv) (pw : String) (t : Nat)
    (h1 : ∀ s k, p (Act.waitVisibleFor s k) = false)
    (h2 : ∀ s i v, p (Act.fill s i v) = false)
    (h3 : p (Act.press passwordSelector 0 "Enter") = false) :
    ((enterPasswordAndSubmit env pw t).2).countP p = 0 := by
  rw [enterPasswordAndSubmit_eq]
  split_ifs <;> simp [h1, h2, h3]

theorem countP_fetch_zero (p : Act → Bool) (r : Except String IdentityResponse) (id : String)
    (h : ∀ s, p (Act.fetchCredentials s) = false) :
    ((fetchIdentityCredentials r id).2).countP p = 0 := by
  rw [fetchIdentityCredentials_eq]
  simp [h]

theorem countP_click_le (p : Act → Bool) (env : LinkedinEnv)
    (h1 : ∀ s, p (Act.isVisibleCheck s) = false)
    (h2 : ∀ k, p (Act.waitForNavigation k) = false) :
    ((clickCommonSubmit env).2).countP p ≤ 1 := by
  rcases h : submitSelectors.find? env.visible with _ | s
  · rw [clickCommonSubmit_none env h]
    simp [submitProbes, countP_probes_zero p _ h1]
  · rw [clickCommonSubmit_some env s h]
    simp [List.countP_append, submitProbes, countP_probes_zero p _ h1, h1, h2,
      List.countP_cons]
    split_ifs <;> simp

theorem countP_click_zero (p : Act → Bool) (env : LinkedinEnv)
    (h1 : ∀ s, p (Act.isVisibleCheck s) = false)
    (h2 : ∀ k, p (Act.waitForNavigation k) = false)
    (h3 : ∀ s i, s ∈ submitSelectors → p (Act.click s i) = false) :
    ((clickCommonSubmit env).2).countP p = 0 := by
  rcases h : submitSelectors.find? env.visible with _ | s
  · rw [clickCommonSubmit_none env h]
    simp [submitProbes, countP_probes_zero p _ h1]
  · rw [clickCommonSubmit_some env s h]
    have hm := List.mem_of_find?_eq_some h
    simp [List.countP_append, submitProbes, countP_probes_zero p _ h1, h1, h2,
      h3 s 0 hm]

theorem isOtpField_of_find (sel : String)
    (h : ∃ vis : String → Bool, singleOtpSelectors.find? vis = some sel) :
    isOtpField sel = true := by
  obtain ⟨vis, h⟩ := h
  have hm := List.mem_of_find?_eq_some h
  simp only [isOtpField, Bool.or_eq_true]
  exact Or.inl (List.elem_iff.mpr hm)

theorem countP_submitOtp_zero (p : Act → Bool) (env : LinkedinEnv)
    (otp : String) (step t : Nat)
    (hprobe : ∀ s, p (Act.isVisibleCheck s) = false)
    (hcount : p Act.countDigitInputs = false)
    (hfill : ∀ s i v, p (Act.fill s i v) = false)
    (htype : ∀ s i v, p (Act.typeText s i v) = false)
    (hnav : ∀ k, p (Act.waitForNavigation k) = false)
    (hurl : ∀ pat k, p (Act.waitForUrl pat k) = false)
    (hcur : p Act.currentUrlCheck = false)
    (hpress : ∀ s i, isOtpField s = true → p (Act.press s i "Enter") = false)
    (hclick : ∀ s i, s ∈ submitSelectors → p (Act.click s i) = false) :
    ((submitOtpCode env otp step t).2).countP p = 0 := by
  have hclick0 := countP_click_zero p env hprobe hnav hclick
  rcases h : singleOtpSelectors.find? env.visible with _ | sel
  · rcases Nat.lt_or_ge env.digitCount 6 with hd | hd
    · rw [submitOtpCode_none env otp step t h hd]
      simp [List.countP_append, singleProbes, countP_probes_zero p _ hprobe, hcount]
    · rw [submitOtpCode_multi env otp step t h hd]
      have hpd : isOtpField digitInputsSelector = true := by
        simp [isOtpField]
      have hdig : ∀ tot : Nat, (otpDigitActions otp.data tot).countP p = 0 := fun tot =>
        countP_otpDigitActions_zero p otp.data tot (fun i v => hfill _ i v)
          (fun i v => htype _ i v)
      by_cases hw : env.otpVerify.waitOk <;> by_cases hfc : feedCheck env.otpVerify <;>
        simp [List.countP_append, List.countP_cons, singleProbes,
          countP_probes_zero p _ hprobe, hcount, hdig, hnav, hurl, hcur,
          hpress _ _ hpd, hclick0, hw, hfc, -List.countP_eq_zero]
  · rw [submitOtpCode_single env otp step t sel h]
    have hps : isOtpField sel = true := isOtpField_of_find sel ⟨env.visible, h⟩
    by_cases hw : env.otpVerify.waitOk <;> by_cases hfc : feedCheck env.otpVerify <;>
      simp [List.countP_append, List.countP_cons, singleProbes,
        countP_probes_zero p _ hprobe, hfill, hnav, hurl, hcur,
        hpress _ _ hps, hclick0, hw, hfc, -List.countP_eq_zero]

theorem countP_submitOtp_le (p : Act → Bool) (env : LinkedinEnv)
    (otp : String) (step t : Nat)
    (hprobe : ∀ s, p (Act.isVisibleCheck s) = false)
    (hcount : p Act.countDigitInputs = false)
    (hfill : ∀ s i v, p (Act.fill s i v) = false)
    (htype : ∀ s i v, p (Act.typeText s i v) = false)
    (hnav : ∀ k, p (Act.waitForNavigation k) = false)
    (hurl : ∀ pat k, p (Act.waitForUrl pat k) = false)
    (hcur : p Act.currentUrlCheck = false)
    (hone : (∀ s i, p (Act.press s i "Enter") = false) ∨ (∀ s i, p (Act.click s i) = false)) :
    ((submitOtpCode env otp step t).2).countP p ≤ 1 := by
  have hclickle := countP_click_le p env hprobe hnav
  rcases h : singleOtpSelectors.find? env.visible with _ | sel
  · rcases Nat.lt_or_ge env.digitCount 6 with hd | hd
    · rw [submitOtpCode_none env otp step t h hd]
      simp [List.countP_append, singleProbes, countP_probes_zero p _ hprobe, hcount]
    · rw [submitOtpCode_multi env otp step t h hd]
      have hdig : ∀ tot : Nat, (otpDigitActions otp.data tot).countP p = 0 := fun tot =>
        countP_otpDigitActions_zero p otp.data tot (fun i v => hfill _ i v)
          (fun i v => htype _ i v)
      rcases hone with hpr | hcl
      · by_cases hw : env.otpVerify.waitOk <;> by_cases hfc : feedCheck env.otpVerify <;>
          simp [List.countP_append, List.countP_cons, singleProbes,
            countP_probes_zero p _ hprobe, hcount, hdig, hnav, hurl, hcur, hpr, hw, hfc,
            -List.countP_eq_zero] <;>
          simpa using hclickle
      · have hclick0 := countP_click_zero p env hprobe hnav (fun s i _ => hcl s i)
        by_cases hw : env.otpVerify.waitOk <;> by_cases hfc : feedCheck env.otpVerify <;>
          simp [List.countP_append, List.countP_cons, singleProbes,
            countP_probes_zero p _ hprobe, hcount, hdig, hnav, hurl, hcur, hclick0, hw, hfc,
            -List.countP_eq_zero] <;>
          split_ifs <;> simp
  · rw [submitOtpCode_single env otp step t sel h]
    rcases hone with hpr | hcl
    · by_cases hw : env.otpVerify.waitOk <;> by_cases hfc : feedCheck env.otpVerify <;>
        simp [List.countP_append, List.countP_cons, singleProbes,
          countP_probes_zero p _ hprobe, hfill, hnav, hurl, hcur, hpr, hw, hfc,
          -List.countP_eq_zero] <;>
        simpa using hclickle
    · have hclick0 := countP_click_zero p env hprobe hnav (fun s i _ => hcl s i)
      by_cases hw : env.otpVerify.waitOk <;> by_cases hfc : feedCheck env.otpVerify <;>
        simp [List.countP_append, List.countP_cons, singleProbes,
          countP_probes_zero p _ hprobe, hfill, hnav, hurl, hcur, hclick0, hw, hfc,
          -List.countP_eq_zero] <;>
        split_ifs <;> simp

end Linkedin

/-! ## Assembling count bounds over whole flows -/

theorem M.countP_step (p : Act → Bool) {α β : Type} (x : M α) (f : α → M β) (n : Nat)
    (hx : x.2.countP p = 0) (hf : ∀ a, ((f a).2).countP p ≤ n) :
    ((M.bindM x f).2).countP p ≤ n := by
  simpa using M.countP_bindM p x f 0 n (le_of_eq hx) hf

theorem M.countP_last (p : Act → Bool) {α β : Type} (x : M α) (f : α → M β) (n : Nat)
    (hx : x.2.countP p ≤ n) (hf : ∀ a, ((f a).2).countP p = 0) :
    ((M.bindM x f).2).countP p ≤ n := by
  simpa using M.countP_bindM p x f n 0 hx (fun a => le_of_eq (hf a))

theorem otpField_ne_pwd (s : String) (hs : isOtpField s = true) :
    (s == Linkedin.passwordSelector) = false := by
  simp only [isOtpField, Bool.or_eq_true] at hs
  rcases hs with hs | hs
  · have hm : s ∈ Linkedin.singleOtpSelectors := List.elem_iff.mp hs
    simp only [Linkedin.singleOtpSelectors, List.mem_cons, List.mem_singleton,
      List.not_mem_nil, or_false] at hm
    rcases hm with rfl | rfl | rfl | rfl | rfl <;> decide
  · rw [show s = Linkedin.digitInputsSelector from by simpa using hs]
    decide

namespace Linkedin

theorem linkedinPre_countP_zero (p : Act → Bool) (env : LinkedinEnv)
    (h : ∀ s, p (Act.fetchCredentials s) = false) :
    ((linkedinPre env).2).countP p = 0 := by
  rcases hc : getConfig env with e | config
  · simp [linkedinPre_eq, hc]
  · rcases hf : env.fetchResult with e2 | resp
    · simp [linkedinPre_eq, hc, hf, h]
    · rcases hp : parseLinkedinCredentials resp.credentials with e3 | creds <;>
        simp [linkedinPre_eq, hc, hf, hp, h]

theorem getAnchorBrowser_countP_zero (p : Act → Bool) (env : LinkedinEnv)
    (config : Config) (es : Bool)
    (h1 : ∀ s, p (Act.connectSession s) = false)
    (h2 : ∀ b, p (Act.createSession b) = false) :
    ((getAnchorBrowser env config es).2).countP p = 0 := by
  rw [getAnchorBrowser_eq]
  split_ifs <;> simp [h1, h2]

theorem linkedinBody_countP_le (p : Act → Bool) (env : LinkedinEnv) (config : Config)
    (credentials : LinkedinCredentials) (k1 k2 : Nat)
    (hnav0 : ∀ cfg, ((navigateToHomepage env cfg).2).countP p = 0)
    (hver0 : ∀ o step t fb, ((verifyLogin o step t fb).2).countP p = 0)
    (huser0 : ∀ u t, ((enterUsername env u t).2).countP p = 0)
    (hfetch0 : ∀ r i, ((fetchIdentityCredentials r i).2).countP p = 0)
    (hpwd : ∀ pw t, ((enterPasswordAndSubmit env pw t).2).countP p ≤ k1)
    (hotp : ∀ o s t, ((submitOtpCode env o s t).2).countP p ≤ k2) :
    ((linkedinBody env config credentials).2).countP p ≤ k1 + k2 := by
  unfold linkedinBody
  simp only [M.bind_def, M.pure_def]
  apply M.countP_step p _ _ _ (hnav0 config)
  intro _
  apply M.countP_step p _ _ _ (hver0 _ _ _ _)
  intro loggedIn
  by_cases hl : loggedIn = true <;> simp only [hl, if_true, if_false, Bool.false_eq_true]
  · simp
  · apply M.countP_step p _ _ _ (huser0 _ _)
    intro _
    apply le_trans (M.countP_bindM p _ _ k1 k2 (hpwd _ _) ?_) (le_refl _)
    intro _
    by_cases ho : credentials.otp ≠ ""
    · rw [if_pos ho]
      apply M.countP_step p _ _ _ (hfetch0 _ _)
      intro upd
      apply M.countP_step p _ _ _ (by simp [liftE])
      intro c2
      apply M.countP_last p _ _ k2 (hotp _ _ _)
      intro _
      apply M.countP_bindM_zero p _ _ (by simp)
      intro y
      apply M.countP_bindM_zero p _ _ (hver0 _ _ _ _)
      intro fl
      by_cases hf2 : fl = true <;> simp [hf2]
    · rw [if_neg ho]
      refine le_trans (le_of_eq ?_) (Nat.zero_le k2)
      apply M.countP_bindM_zero p _ _ (by simp)
      intro y
      apply M.countP_bindM_zero p _ _ (hver0 _ _ _ _)
      intro fl
      by_cases hf2 : fl = true <;> simp [hf2]

theorem linkedinBody_countP_zero (p : Act → Bool) (env : LinkedinEnv) (config : Config)
    (credentials : LinkedinCredentials)
    (hnav0 : ∀ cfg, ((navigateToHomepage env cfg).2).countP p = 0)
    (hver0 : ∀ o step t fb, ((verifyLogin o step t fb).2).countP p = 0)
    (huser0 : ∀ u t, ((enterUsername env u t).2).countP p = 0)
    (hfetch0 : ∀ r i, ((fetchIdentityCredentials r i).2).countP p = 0)
    (hpwd : ∀ pw t, ((enterPasswordAndSubmit env pw t).2).countP p = 0)
    (hotp : ∀ o s t, ((submitOtpCode env o s t).2).countP p = 0) :
    ((linkedinBody env config credentials).2).countP p = 0 := by
  have := linkedinBody_countP_le p env config credentials 0 0 hnav0 hver0 huser0 hfetch0
    (fun pw t => le_of_eq (hpwd pw t)) (fun o s t => le_of_eq (hotp o s t))
  omega

theorem LoginToLinkedin_countP_le (p : Act → Bool) (env : LinkedinEnv) (k : Nat)
    (hpre : ((linkedinPre env).2).countP p = 0)
    (hses : ∀ config es, ((getAnchorBrowser env config es).2).countP p = 0)
    (hbody : ∀ config credentials,
      ((linkedinBody env config credentials).2).countP p ≤ k)
    (hclose : p Act.closeBrowser = false) :
    ((LoginToLinkedin env).2).countP p ≤ k := by
  unfold LoginToLinkedin
  rcases hp : linkedinPre env with ⟨e | ⟨config, credentials⟩, t0⟩
  · rw [hp] at hpre
    have hpre0 : t0.countP p = 0 := hpre
    simp only [hp]
    exact (le_of_eq hpre0).trans (Nat.zero_le k)
  · rw [hp] at hpre
    have hpre0 : t0.countP p = 0 := hpre
    simp only [hp]
    have hses' := hses config (credentials.otp == "")
    rcases hb : getAnchorBrowser env config (credentials.otp == "") with ⟨rb, t1⟩
    rw [hb] at hses'
    have hses0 : t1.countP p = 0 := hses'
    try simp only [hb]
    rcases rb with eb | u
    · simp [List.countP_append, hpre0, hses0]
    · have hbody' := hbody config credentials
      rcases hbd : linkedinBody env config credentials with ⟨rb2, t2⟩
      rw [hbd] at hbody'
      have hb2 : t2.countP p ≤ k := hbody'
      by_cases hc : env.hasContext
      · by_cases hg : env.hasPage
        · simp only [hbd, hc, hg, Bool.not_true, Bool.false_eq_true, if_false]
          rcases rb2 with e2 | r2 <;>
            · simp [List.countP_append, List.countP_cons, hpre0, hses0, hclose]
              exact hb2
        · simp [hc, hg, List.countP_append, hpre0, hses0]
      · simp [hc, List.countP_append, hpre0, hses0]

end Linkedin

/-! ## Count bounds for the concrete submit predicates -/

theorem linkedin_pwd_count_le (env : Linkedin.LinkedinEnv) :
    ((Linkedin.LoginToLinkedin env).2).countP isPwdSubmit ≤ 1 := by
  apply Linkedin.LoginToLinkedin_countP_le isPwdSubmit env 1
  · exact Linkedin.linkedinPre_countP_zero _ env (fun _ => rfl)
  · intro config es
    exact Linkedin.getAnchorBrowser_countP_zero _ env config es (fun _ => rfl) (fun _ => rfl)
  · intro config credentials
    have h := Linkedin.linkedinBody_countP_le isPwdSubmit env config credentials 1 0
      (fun cfg => Linkedin.countP_nav_zero _ env cfg (fun _ _ => rfl) (fun _ => rfl))
      (fun o step t fb => Linkedin.countP_verify_zero _ o step t fb (fun _ _ => rfl) rfl)
      (fun u t => Linkedin.countP_user_zero _ env u t (fun _ _ => rfl) (fun _ _ _ => rfl)
        (by decide))
      (fun r i => Linkedin.countP_fetch_zero _ r i (fun _ => rfl))
      (fun pw t => Linkedin.countP_pwd_le _ env pw t (fun _ _ => rfl) (fun _ _ _ => rfl))
      (fun o s t => le_of_eq (Linkedin.countP_submitOtp_zero _ env o s t (fun _ => rfl) rfl
        (fun _ _ _ => rfl) (fun _ _ _ => rfl) (fun _ => rfl) (fun _ _ => rfl) rfl
        (fun s i hs => by simp [isPwdSubmit, otpField_ne_pwd s hs])
        (fun _ _ _ => rfl)))
    simpa using h
  · rfl

theorem linkedin_otpkey_count_le (env : Linkedin.LinkedinEnv) :
    ((Linkedin.LoginToLinkedin env).2).countP isOtpKeySubmit ≤ 1 := by
  apply Linkedin.LoginToLinkedin_countP_le isOtpKeySubmit env 1
  · exact Linkedin.linkedinPre_countP_zero _ env (fun _ => rfl)
  · intro config es
    exact Linkedin.getAnchorBrowser_countP_zero _ env config es (fun _ => rfl) (fun _ => rfl)
  · intro config credentials
    have h := Linkedin.linkedinBody_countP_le isOtpKeySubmit env config credentials 0 1
      (fun cfg => Linkedin.countP_nav_zero _ env cfg (fun _ _ => rfl) (fun _ => rfl))
      (fun o step t fb => Linkedin.countP_verify_zero _ o step t fb (fun _ _ => rfl) rfl)
      (fun u t => Linkedin.countP_user_zero _ env u t (fun _ _ => rfl) (fun _ _ _ => rfl)
        (by decide))
      (fun r i => Linkedin.countP_fetch_zero _ r i (fun _ => rfl))
      (fun pw t => le_of_eq (Linkedin.countP_pwd_zero _ env pw t (fun _ _ => rfl)
        (fun _ _ _ => rfl) (by decide)))
      (fun o s t => Linkedin.countP_submitOtp_le _ env o s t (fun _ => rfl) rfl
        (fun _ _ _ => rfl) (fun _ _ _ => rfl) (fun _ => rfl) (fun _ _ => rfl) rfl
        (Or.inr (fun _ _ => rfl)))
    simpa using h
  · rfl

theorem linkedin_click_count_le (env : Linkedin.LinkedinEnv) :
    ((Linkedin.LoginToLinkedin env).2).countP isClickAct ≤ 1 := by
  apply Linkedin.LoginToLinkedin_countP_le isClickAct env 1
  · exact Linkedin.linkedinPre_countP_zero _ env (fun _ => rfl)
  · intro config es
    exact Linkedin.getAnchorBrowser_countP_zero _ env config es (fun _ => rfl) (fun _ => rfl)
  · intro config credentials
    have h := Linkedin.linkedinBody_countP_le isClickAct env config credentials 0 1
      (fun cfg => Linkedin.countP_nav_zero _ env cfg (fun _ _ => rfl) (fun _ => rfl))
      (fun o step t fb => Linkedin.countP_verify_zero _ o step t fb (fun _ _ => rfl) rfl)
      (fun u t => Linkedin.countP_user_zero _ env u t (fun _ _ => rfl) (fun _ _ _ => rfl) rfl)
      (fun r i => Linkedin.countP_fetch_zero _ r i (fun _ => rfl))
      (fun pw t => le_of_eq (Linkedin.countP_pwd_zero _ env pw t (fun _ _ => rfl)
        (fun _ _ _ => rfl) rfl))
      (fun o s t => Linkedin.countP_submitOtp_le _ env o s t (fun _ => rfl) rfl
        (fun _ _ _ => rfl) (fun _ _ _ => rfl) (fun _ => rfl) (fun _ _ => rfl) rfl
        (Or.inl (fun _ _ => rfl)))
    simpa using h
  · rfl

theorem linkedin_badclick_count_zero (env : Linkedin.LinkedinEnv) :
    ((Linkedin.LoginToLinkedin env).2).countP isBadClick = 0 := by
  refine Nat.le_zero.mp ?_
  apply Linkedin.LoginToLinkedin_countP_le isBadClick env 0
  · exact Linkedin.linkedinPre_countP_zero _ env (fun _ => rfl)
  · intro config es
    exact Linkedin.getAnchorBrowser_countP_zero _ env config es (fun _ => rfl) (fun _ => rfl)
  · intro config credentials
    refine le_of_eq (Linkedin.linkedinBody_countP_zero isBadClick env config credentials
      (fun cfg => Linkedin.countP_nav_zero _ env cfg (fun _ _ => rfl) (fun _ => rfl))
      (fun o step t fb => Linkedin.countP_verify_zero _ o step t fb (fun _ _ => rfl) rfl)
      (fun u t => Linkedin.countP_user_zero _ env u t (fun _ _ => rfl) (fun _ _ _ => rfl) rfl)
      (fun r i => Linkedin.countP_fetch_zero _ r i (fun _ => rfl))
      (fun pw t => Linkedin.countP_pwd_zero _ env pw t (fun _ _ => rfl) (fun _ _ _ => rfl) rfl)
      (fun o s t => Linkedin.countP_submitOtp_zero _ env o s t (fun _ => rfl) rfl
        (fun _ _ _ => rfl) (fun _ _ _ => rfl) (fun _ => rfl) (fun _ _ => rfl) rfl
        (fun s i hs => rfl)
        (fun s i hm => by simp [isBadClick, List.elem_iff.mpr hm, hm])))
  · rfl

theorem linkedin_body_close_zero (env : Linkedin.LinkedinEnv) (config : Linkedin.Config)
    (credentials : Linkedin.LinkedinCredentials) :
    ((Linkedin.linkedinBody env config credentials).2).countP isCloseAct = 0 :=
  Linkedin.linkedinBody_countP_zero isCloseAct env config credentials
    (fun cfg => Linkedin.countP_nav_zero _ env cfg (fun _ _ => rfl) (fun _ => rfl))
    (fun o step t fb => Linkedin.countP_verify_zero _ o step t fb (fun _ _ => rfl) rfl)
    (fun u t => Linkedin.countP_user_zero _ env u t (fun _ _ => rfl) (fun _ _ _ => rfl) rfl)
    (fun r i => Linkedin.countP_fetch_zero _ r i (fun _ => rfl))
    (fun pw t => Linkedin.countP_pwd_zero _ env pw t (fun _ _ => rfl) (fun _ _ _ => rfl) rfl)
    (fun o s t => Linkedin.countP_submitOtp_zero _ env o s t (fun _ => rfl) rfl
      (fun _ _ _ => rfl) (fun _ _ _ => rfl) (fun _ => rfl) (fun _ _ => rfl) rfl
      (fun s i hs => rfl) (fun s i hm => rfl))

/-- C2: across any single LinkedIn attempt, for every collaborator
behaviour, the password key-submit (Enter on the password field) occurs
at most once, the OTP key-submit (Enter on an OTP field) occurs at most
once, at most one click is performed at all, every click performed
targets one of the generic submit/verify/continue controls, and those
controls are distinct from the OTP fields and from the password field
(so the fallback never re-issues a field's key-submit). -/
theorem claim_C2_at_most_one_submit (env : Linkedin.LinkedinEnv) :
    ((Linkedin.LoginToLinkedin env).2).countP isPwdSubmit ≤ 1 ∧
    ((Linkedin.LoginToLinkedin env).2).countP isOtpKeySubmit ≤ 1 ∧
    ((Linkedin.LoginToLinkedin env).2).countP isClickAct ≤ 1 ∧
    ((Linkedin.LoginToLinkedin env).2).countP isBadClick = 0 ∧
    (Linkedin.submitSelectors.all
      (fun s => !isOtpField s && !(s == Linkedin.passwordSelector)) = true) :=
  ⟨linkedin_pwd_count_le env, linkedin_otpkey_count_le env,
   linkedin_click_count_le env, linkedin_badclick_count_zero env, by decide⟩

/-! ## Browser release accounting for the LinkedIn flow -/

theorem linkedin_close_count_one (env : Linkedin.LinkedinEnv)
    (cfg : Linkedin.Config) (creds : Linkedin.LinkedinCredentials)
    (hpre : (Linkedin.linkedinPre env).1 = Except.ok (cfg, creds))
    (hses : env.sessionResult = Except.ok ())
    (hctx : env.hasContext = true) (hpg : env.hasPage = true) :
    ((Linkedin.LoginToLinkedin env).2).countP isCloseAct = 1 := by
  have h0 := Linkedin.linkedinPre_countP_zero isCloseAct env (fun _ => rfl)
  have h1 := Linkedin.getAnchorBrowser_countP_zero isCloseAct env cfg (creds.otp == "")
    (fun _ => rfl) (fun _ => rfl)
  have hsr : (Linkedin.getAnchorBrowser env cfg (creds.otp == "")).1 = env.sessionResult := by
    rw [Linkedin.getAnchorBrowser_eq]
  unfold Linkedin.LoginToLinkedin
  rcases hp : Linkedin.linkedinPre env with ⟨res, t0⟩
  rw [hp] at hpre h0
  have hres : res = Except.ok (cfg, creds) := hpre
  subst hres
  have h00 : t0.countP isCloseAct = 0 := h0
  rcases hb : Linkedin.getAnchorBrowser env cfg (creds.otp == "") with ⟨rs, t1⟩
  rw [hb] at hsr h1
  have hrs : rs = Except.ok () := hsr.trans hses
  subst hrs
  have h10 : t1.countP isCloseAct = 0 := h1
  have h2 := linkedin_body_close_zero env cfg creds
  rcases hbd : Linkedin.linkedinBody env cfg creds with ⟨rb, t2⟩
  rw [hbd] at h2
  have h20 : t2.countP isCloseAct = 0 := h2
  rcases rb with e2 | r2 <;>
    simp [hp, hb, hbd, hctx, hpg, List.countP_append, List.countP_cons,
      h00, h10, h20, isCloseAct]

theorem linkedin_noContext_no_close (env : Linkedin.LinkedinEnv)
    (cfg : Linkedin.Config) (creds : Linkedin.LinkedinCredentials)
    (hpre : (Linkedin.linkedinPre env).1 = Except.ok (cfg, creds))
    (hses : env.sessionResult = Except.ok ())
    (hctx : env.hasContext = false) :
    (Linkedin.LoginToLinkedin env).1
        = Except.ok { success := false, message := "Failed to get browser context" } ∧
    ((Linkedin.LoginToLinkedin env).2).countP isCloseAct = 0 := by
  have h0 := Linkedin.linkedinPre_countP_zero isCloseAct env (fun _ => rfl)
  have h1 := Linkedin.getAnchorBrowser_countP_zero isCloseAct env cfg (creds.otp == "")
    (fun _ => rfl) (fun _ => rfl)
  have hsr : (Linkedin.getAnchorBrowser env cfg (creds.otp == "")).1 = env.sessionResult := by
    rw [Linkedin.getAnchorBrowser_eq]
  unfold Linkedin.LoginToLinkedin
  rcases hp : Linkedin.linkedinPre env with ⟨res, t0⟩
  rw [hp] at hpre h0
  have hres : res = Except.ok (cfg, creds) := hpre
  subst hres
  have h00 : t0.countP isCloseAct = 0 := h0
  rcases hb : Linkedin.getAnchorBrowser env cfg (creds.otp == "") with ⟨rs, t1⟩
  rw [hb] at hsr h1
  have hrs : rs = Except.ok () := hsr.trans hses
  subst hrs
  have h10 : t1.countP isCloseAct = 0 := h1
  constructor <;> simp [hp, hb, hctx, List.countP_append, h00, h10]

/-! ## Result analysis of the LinkedIn try-body -/

namespace Linkedin

theorem linkedinPre_mem (env : LinkedinEnv) :
    ∀ a ∈ (linkedinPre env).2, ∃ s, a = Act.fetchCredentials s := by
  intro a ha
  rcases hc : getConfig env with e | config
  · simp only [linkedinPre_eq, hc] at ha
    simp at ha
  · rcases hf : env.fetchResult with e2 | resp
    · simp only [linkedinPre_eq, hc, hf] at ha
      simp at ha
      exact ⟨_, ha⟩
    · rcases hp : parseLinkedinCredentials resp.credentials with e3 | creds <;>
        simp only [linkedinPre_eq, hc, hf, hp] at ha <;> simp at ha <;> exact ⟨_, ha⟩

theorem getAnchorBrowser_mem (env : LinkedinEnv) (config : Config) (es : Bool) :
    ∀ a ∈ (getAnchorBrowser env config es).2,
      (∃ s, a = Act.connectSession s) ∨ (∃ b, a = Act.createSession b) := by
  intro a ha
  rw [getAnchorBrowser_eq] at ha
  simp only [List.mem_singleton] at ha
  split_ifs at ha
  · exact Or.inr ⟨_, ha⟩
  · exact Or.inl ⟨_, ha⟩

theorem navigateToHomepage_mem (env : LinkedinEnv) (config : Config) :
    ∀ a ∈ (navigateToHomepage env config).2,
      (∃ u t, a = Act.navigate u t) ∨ a = Act.isVisibleCheck "#login-nav-button" := by
  intro a ha
  rw [navigateToHomepage_eq] at ha
  split_ifs at ha <;> simp at ha <;>
    first
      | (rcases ha with rfl | rfl
         · exact Or.inl ⟨_, _, rfl⟩
         · exact Or.inr rfl)
      | (rw [ha]; exact Or.inl ⟨_, _, rfl⟩)

theorem linkedinBody_already (env : LinkedinEnv) (config : Config)
    (credentials : LinkedinCredentials)
    (hnav : (navigateToHomepage env config).1 = Except.ok ())
    (hpre : feedCheck env.precheck = true) :
    linkedinBody env config credentials =
      (Except.ok { success := true, message := "Already authenticated. Landed on /feed." },
       (navigateToHomepage env config).2
         ++ (Act.waitForUrl feedUrlPattern (max config.timeoutMs 10000) ::
             (if env.precheck.waitOk then [] else [Act.currentUrlCheck]))) := by
  unfold linkedinBody
  rcases hn : navigateToHomepage env config with ⟨rn, tn⟩
  rw [hn] at hnav
  have hrn : rn = Except.ok () := hnav
  subst hrn
  simp [hn, verifyLogin_eq, hpre]

theorem linkedinBody_success_cases (env : LinkedinEnv) (config : Config)
    (credentials : LinkedinCredentials) (r : LoginResult)
    (hok : (linkedinBody env config credentials).1 = Except.ok r)
    (hs : r.success = true) :
    (feedCheck env.precheck = true ∧
      r.message = "Already authenticated. Landed on /feed.") ∨
    Act.press passwordSelector 0 "Enter" ∈ (linkedinBody env config credentials).2 := by
  unfold linkedinBody at hok ⊢
  rcases hn : navigateToHomepage env config with ⟨rn | u0, tn⟩
  · simp [hn] at hok
  · by_cases hpre : feedCheck env.precheck
    · left
      refine ⟨hpre, ?_⟩
      simp [hn, verifyLogin_eq, hpre] at hok
      rw [← hok]
    · right
      simp only [M.bind_def, M.bindM_ok, verifyLogin_eq, hpre, Bool.false_eq_true,
        if_false] at hok ⊢
      rcases hu : enterUsername env credentials.username config.timeoutMs with ⟨ru | u1, tu⟩
      · simp [hn, hu] at hok
      · rcases hp2 : enterPasswordAndSubmit env credentials.password config.timeoutMs
          with ⟨rp, tp⟩
        have hexp := enterPasswordAndSubmit_eq env credentials.password config.timeoutMs
        rw [hp2] at hexp
        by_cases hv : env.visible passwordSelector
        · rw [if_pos hv] at hexp
          have htp : tp = [Act.waitVisibleFor passwordSelector config.timeoutMs,
            Act.fill passwordSelector 0 credentials.password,
            Act.press passwordSelector 0 "Enter"] := congrArg Prod.snd hexp
          have hrp : rp = Except.ok () := congrArg Prod.fst hexp
          subst htp
          subst hrp
          simp [hn]
        · rw [if_neg hv] at hexp
          have hrp : rp = Except.error ("Timeout waiting for selector " ++ passwordSelector) :=
            congrArg Prod.fst hexp
          rw [hrp] at hp2
          simp [hn, hu, hp2] at hok

end Linkedin

/-- C5 counterexample: with a fully cooperative collaborator behaviour
whose pre-login check already matches the authenticated-area pattern,
`LoginToLinkedin` returns a Success outcome although not a single
submit action (password key-submit, OTP key-submit, or click) was
performed — refuting "the returned outcome is never Success when no
submit action was performed". -/
theorem claim_C5_counterexample :
    (Linkedin.LoginToLinkedin alreadyLoggedInEnv).1
        = Except.ok { success := true, message := "Already authenticated. Landed on /feed." } ∧
    ((Linkedin.LoginToLinkedin alreadyLoggedInEnv).2).countP isSubmitAct = 0 := by
  constructor <;> rfl

/-- C5 (amended): in the LinkedIn flow, whenever a returned outcome is
Success although no submit action appears in the trace, it is the
already-authenticated short-circuit (its message is the fixed
"Already authenticated" message); apart from that path, an attempt
without a submit action never yields Success (and CredentialsRejected
is not representable at all in this flow's binary result type). -/
theorem claim_C5_amended (env : Linkedin.LinkedinEnv) (r : LoginResult)
    (hok : (Linkedin.LoginToLinkedin env).1 = Except.ok r)
    (hs : r.success = true)
    (hz : ((Linkedin.LoginToLinkedin env).2).countP isSubmitAct = 0) :
    r.message = "Already authenticated. Landed on /feed." := by
  unfold Linkedin.LoginToLinkedin at hok hz
  rcases hp : Linkedin.linkedinPre env with ⟨res, t0⟩
  rw [hp] at hok hz
  rcases res with e | ⟨config, credentials⟩
  · simp at hok
  · dsimp only at hok hz
    rcases hb : Linkedin.getAnchorBrowser env config (credentials.otp == "") with ⟨rs, t1⟩
    rw [hb] at hok hz
    rcases rs with eb | u
    · simp at hok
    · by_cases hc : env.hasContext
      · by_cases hg : env.hasPage
        · rcases hbd : Linkedin.linkedinBody env config credentials with ⟨rb, t2⟩
          rw [hbd] at hok hz
          rcases rb with e2 | r2
          · simp [hc, hg] at hok
            rw [← hok] at hs
            simp at hs
          · simp [hc, hg] at hok
            have hz2 : t2.countP isSubmitAct = 0 := by
              simp only [hc, hg, Bool.not_true, Bool.false_eq_true, if_false,
                List.countP_append, List.countP_cons, List.countP_nil] at hz
              omega
            have hok2 : (Linkedin.linkedinBody env config credentials).1 = Except.ok r := by
              rw [hbd, hok]
            rcases Linkedin.linkedinBody_success_cases env config credentials r hok2 hs
              with ⟨_, hm⟩ | hmem
            · exact hm
            · exfalso
              have hpos : 0 < t2.countP isSubmitAct := by
                have hmem2 : Act.press Linkedin.passwordSelector 0 "Enter" ∈ t2 := by
                  rw [hbd] at hmem
                  exact hmem
                exact List.countP_pos_iff.mpr
                  ⟨Act.press Linkedin.passwordSelector 0 "Enter", hmem2, by decide⟩
              omega
        · simp [hc, hg] at hok
          rw [← hok] at hs
          simp at hs
      · simp [hc] at hok
        rw [← hok] at hs
        simp at hs

/-- C6: for every collaborator behaviour where setup succeeds, the
navigation step succeeds and the authenticated-area URL pattern already
matches at the pre-login check, the LinkedIn controller short-circuits
directly to the Success outcome and its whole trace never touches
(waits for, probes, fills, types into, presses or clicks) the username
field or the password field. -/
theorem claim_C6_precheck_short_circuit (env : Linkedin.LinkedinEnv)
    (cfg : Linkedin.Config) (creds : Linkedin.LinkedinCredentials)
    (hpre : (Linkedin.linkedinPre env).1 = Except.ok (cfg, creds))
    (hses : env.sessionResult = Except.ok ())
    (hctx : env.hasContext = true) (hpg : env.hasPage = true)
    (hnav : (Linkedin.navigateToHomepage env cfg).1 = Except.ok ())
    (hmatch : feedCheck env.precheck = true) :
    (Linkedin.LoginToLinkedin env).1
        = Except.ok { success := true, message := "Already authenticated. Landed on /feed." } ∧
    ∀ a ∈ (Linkedin.LoginToLinkedin env).2,
      touches Linkedin.usernameSelector a = false ∧
      touches Linkedin.passwordSelector a = false := by
  have hbody := Linkedin.linkedinBody_already env cfg creds hnav hmatch
  have hsr : (Linkedin.getAnchorBrowser env cfg (creds.otp == "")).1 = env.sessionResult := by
    rw [Linkedin.getAnchorBrowser_eq]
  unfold Linkedin.LoginToLinkedin
  rcases hp : Linkedin.linkedinPre env with ⟨res, t0⟩
  rw [hp] at hpre
  have hres : res = Except.ok (cfg, creds) := hpre
  subst hres
  rcases hb : Linkedin.getAnchorBrowser env cfg (creds.otp == "") with ⟨rs, t1⟩
  rw [hb] at hsr
  have hrs : rs = Except.ok () := hsr.trans hses
  subst hrs
  constructor
  · simp [hp, hb, hctx, hpg, hbody]
  · intro a ha
    simp only [hp, hb, hctx, hpg, Bool.not_true, Bool.false_eq_true, if_false,
      hbody] at ha
    simp only [List.mem_append, List.mem_cons, List.mem_singleton] at ha
    rcases ha with ((h0 | h1) | (hn2 | hw | hcur)) | hcl
    · have := Linkedin.linkedinPre_mem env a (by rw [hp]; exact h0)
      obtain ⟨s, rfl⟩ := this
      exact ⟨rfl, rfl⟩
    · have := Linkedin.getAnchorBrowser_mem env cfg (creds.otp == "") a (by rw [hb]; exact h1)
      rcases this with ⟨s, rfl⟩ | ⟨b2, rfl⟩ <;> exact ⟨rfl, rfl⟩
    · have := Linkedin.navigateToHomepage_mem env cfg a hn2
      rcases this with ⟨u2, t2, rfl⟩ | rfl
      · exact ⟨rfl, rfl⟩
      · exact ⟨by decide, by decide⟩
    · rw [hw]; exact ⟨rfl, rfl⟩
    · split_ifs at hcur
      · simp at hcur
      · simp only [List.mem_singleton] at hcur
        rw [hcur]
        exact ⟨rfl, rfl⟩
    · rcases hcl with rfl | hfalse
      · exact ⟨rfl, rfl⟩
      · simp at hfalse

theorem claim_C5_amended_witness :
    (Linkedin.LoginToLinkedin alreadyLoggedInEnv).1
        = Except.ok { success := true, message := "Already authenticated. Landed on /feed." } ∧
    ({ success := true, message := "Already authenticated. Landed on /feed." } : LoginResult).message
        = "Already authenticated. Landed on /feed." :=
  ⟨rfl, claim_C5_amended alreadyLoggedInEnv _ rfl rfl rfl⟩

theorem claim_C6_witness :
    (Linkedin.LoginToLinkedin alreadyLoggedInEnv).1
        = Except.ok { success := true, message := "Already authenticated. Landed on /feed." } ∧
    ∀ a ∈ (Linkedin.LoginToLinkedin alreadyLoggedInEnv).2,
      touches Linkedin.usernameSelector a = false ∧
      touches Linkedin.passwordSelector a = false :=
  claim_C6_precheck_short_circuit alreadyLoggedInEnv
    ⟨"", "id1", 10000, "https://www.linkedin.com/uas/login"⟩ ⟨"u", "p", ""⟩
    rfl rfl rfl rfl rfl rfl

/-! ## Trace characterizations of the Mesh step functions -/

namespace Mesh

theorem verifyMeshLogin_eq (env : MeshEnv) (config : Config) :
    verifyMeshLogin env config =
      (Except.ok (meshCheck env.meshVerify),
       Act.waitForUrl meshUrlPattern (max config.timeoutMs 60000) ::
         (if env.meshVerify.waitOk then [] else [Act.currentUrlCheck])) := by
  by_cases h : env.meshVerify.waitOk <;> simp [verifyMeshLogin, emit, meshCheck, h]

theorem meshFetchPhase_eq (env : MeshEnv) :
    meshFetchPhase env =
      match getConfig env with
      | Except.error e => (Except.error e, [])
      | Except.ok config =>
        match env.fetchResult with
        | Except.error e => (Except.error e, [Act.fetchCredentials config.identityId])
        | Except.ok resp =>
          (parseComplyAdvantageCredentials resp.credentials,
           [Act.fetchCredentials config.identityId]) := by
  rcases hc : getConfig env with e | config
  · simp [meshFetchPhase, liftE, hc]
  · rcases hf : env.fetchResult with e2 | resp <;>
      simp [meshFetchPhase, liftE, fetchIdentityCredentials, emit, hc, hf]

theorem close0_waitForVisibleM (vis : String → Bool) (sel : String) (t : Nat) :
    ((waitForVisibleM vis sel t).2).countP isCloseAct = 0 := by
  rw [waitForVisibleM_eq]
  simp [isCloseAct]

theorem close0_getAnchorBrowser (env : MeshEnv) (config : Config) :
    ((getAnchorBrowser env config).2).countP isCloseAct = 0 := by
  unfold getAnchorBrowser
  by_cases h : config.sessionId = "" <;> simp [emit, liftE, h, isCloseAct]

theorem close0_clickWithFallback (env : MeshEnv) (config : Config) (sel : String) :
    ((clickWithFallback env config sel).2).countP isCloseAct = 0 := by
  unfold clickWithFallback
  apply M.countP_bindM_zero _ _ _ (close0_waitForVisibleM _ _ _)
  intro _
  by_cases h1 : env.clickOk sel <;> by_cases h2 : env.jsClickOk sel <;>
    simp [emit, h1, h2, isCloseAct]

theorem close0_navigateToHomepage (env : MeshEnv) (config : Config) :
    ((navigateToHomepage env config).2).countP isCloseAct = 0 := by
  unfold navigateToHomepage
  by_cases h1 : env.gotoHomeOk <;> by_cases h2 : env.visible "#login-nav-button" <;>
    simp [emit, M.fail, h1, h2, isCloseAct]

theorem close0_dismissCookieBanner (env : MeshEnv) :
    ((dismissCookieBanner env).2).countP isCloseAct = 0 := by
  unfold dismissCookieBanner
  by_cases h1 : env.visible "#notice" <;> by_cases h2 : env.visible acceptAllSelector <;>
    simp [emit, h1, h2, isCloseAct]

theorem close0_openLoginModal (env : MeshEnv) (config : Config) :
    ((openLoginModal env config).2).countP isCloseAct = 0 := by
  unfold openLoginModal
  apply M.countP_bindM_zero _ _ _ (close0_clickWithFallback env config _)
  intro clicked
  by_cases h1 : clicked = true <;> by_cases h2 : env.visible loginModalSelector <;>
    simp [emit, h1, h2, isCloseAct]

theorem close0_selectMeshLoginOption (env : MeshEnv) (config : Config) :
    ((selectMeshLoginOption env config).2).countP isCloseAct = 0 := by
  unfold selectMeshLoginOption
  rcases h1 : env.openPages.find? (fun p => p.1 != 0) with _ | p
  · by_cases h2 : env.visible "#mesh-li-modal-button"
    · simp [h1, h2, emit, liftE, isCloseAct]
    · rcases h3 : env.openPages.find? (fun p => authUrlTest p.2) with _ | q <;>
        simp [h1, h2, h3, emit, isCloseAct]
  · simp [h1, isCloseAct]

theorem close0_waitForAuth0Page (env : MeshEnv) (config : Config) :
    ((waitForAuth0Page env config).2).countP isCloseAct = 0 := by
  simp [waitForAuth0Page, emit, isCloseAct]

theorem close0_enterOrganization (env : MeshEnv) (org : String) :
    ((enterOrganization env org).2).countP isCloseAct = 0 := by
  unfold enterOrganization
  by_cases h : env.visible "#organizationName" <;> simp [emit, h, isCloseAct]

theorem close0_enterUsername (env : MeshEnv) (config : Config) (u : String) :
    ((enterUsername env config u).2).countP isCloseAct = 0 := by
  unfold enterUsername
  apply M.countP_bindM_zero _ _ _ (close0_waitForVisibleM _ _ _)
  intro _
  simp [emit, isCloseAct]

theorem close0_enterPassword (env : MeshEnv) (config : Config) (pw : String) :
    ((enterPassword env config pw).2).countP isCloseAct = 0 := by
  unfold enterPassword
  apply M.countP_bindM_zero _ _ _ (close0_waitForVisibleM _ _ _)
  intro _
  simp [emit, isCloseAct]

theorem close0_verifyMeshLogin (env : MeshEnv) (config : Config) :
    ((verifyMeshLogin env config).2).countP isCloseAct = 0 := by
  rw [verifyMeshLogin_eq]
  split_ifs <;> simp [isCloseAct]

theorem meshBody_close_zero (env : MeshEnv) (config : Config)
    (credentials : ComplyAdvantageCredentials) :
    ((meshBody env config credentials).2).countP isCloseAct = 0 := by
  unfold meshBody
  simp only [M.bind_def, M.pure_def]
  apply M.countP_bindM_zero _ _ _ (close0_navigateToHomepage env config)
  intro _
  apply M.countP_bindM_zero _ _ _ (close0_dismissCookieBanner env)
  intro _
  apply M.countP_bindM_zero _ _ _ (close0_openLoginModal env config)
  intro _
  apply M.countP_bindM_zero _ _ _ (close0_selectMeshLoginOption env config)
  intro _
  apply M.countP_bindM_zero _ _ _ (close0_waitForAuth0Page env config)
  intro _
  apply M.countP_bindM_zero _ _ _ (close0_enterOrganization env _)
  intro _
  apply M.countP_bindM_zero _ _ _ (close0_enterUsername env config _)
  intro _
  apply M.countP_bindM_zero _ _ _ (close0_enterPassword env config _)
  intro _
  apply M.countP_bindM_zero _ _ _ (close0_verifyMeshLogin env config)
  intro reached
  by_cases h : reached = true <;> simp [h]

theorem meshFetchPhase_close_zero (env : MeshEnv) :
    ((meshFetchPhase env).2).countP isCloseAct = 0 := by
  rw [meshFetchPhase_eq]
  rcases getConfig env with e | config
  · simp
  · rcases env.fetchResult with e2 | resp <;> simp [isCloseAct]

end Mesh

/-! ## Browser release accounting for the Mesh flow -/

theorem mesh_getAnchorBrowser_res (env : Mesh.MeshEnv) (cfg : Mesh.Config) :
    (Mesh.getAnchorBrowser env cfg).1 = env.sessionResult := by
  unfold Mesh.getAnchorBrowser
  by_cases h : cfg.sessionId = "" <;> simp [emit, liftE, h]

theorem mesh_close_count_one (env : Mesh.MeshEnv)
    (creds : Mesh.ComplyAdvantageCredentials) (cfg : Mesh.Config)
    (hval : Mesh.validateRequiredInputs env = Except.ok ())
    (hfetch : (Mesh.meshFetchPhase env).1 = Except.ok creds)
    (hcfg : Mesh.getConfig env = Except.ok cfg)
    (hses : env.sessionResult = Except.ok ())
    (hctx : env.hasContext = true) (hpg : env.hasPage = true) :
    ((Mesh.LoginToComplyAdvantageMesh env).2).countP isCloseAct = 1 := by
  have h0 := Mesh.meshFetchPhase_close_zero env
  have h1 := Mesh.close0_getAnchorBrowser env cfg
  have hsr := mesh_getAnchorBrowser_res env cfg
  unfold Mesh.LoginToComplyAdvantageMesh
  rcases hfp : Mesh.meshFetchPhase env with ⟨resf, t0⟩
  rw [hfp] at hfetch h0
  have hresf : resf = Except.ok creds := hfetch
  subst hresf
  have h00 : t0.countP isCloseAct = 0 := h0
  rcases hb : Mesh.getAnchorBrowser env cfg with ⟨rs, t1⟩
  rw [hb] at hsr h1
  have hrs : rs = Except.ok () := hsr.trans hses
  subst hrs
  have h10 : t1.countP isCloseAct = 0 := h1
  have h2 := Mesh.meshBody_close_zero env cfg creds
  rcases hbd : Mesh.meshBody env cfg creds with ⟨rb, t2⟩
  rw [hbd] at h2
  have h20 : t2.countP isCloseAct = 0 := h2
  rcases rb with e2 | r2 <;>
    simp [hval, hfp, hcfg, hb, hbd, hctx, hpg, List.countP_append, List.countP_cons,
      h00, h10, h20, isCloseAct]

theorem mesh_noContext_no_close (env : Mesh.MeshEnv)
    (creds : Mesh.ComplyAdvantageCredentials) (cfg : Mesh.Config)
    (hval : Mesh.validateRequiredInputs env = Except.ok ())
    (hfetch : (Mesh.meshFetchPhase env).1 = Except.ok creds)
    (hcfg : Mesh.getConfig env = Except.ok cfg)
    (hses : env.sessionResult = Except.ok ())
    (hctx : env.hasContext = false) :
    (Mesh.LoginToComplyAdvantageMesh env).1
        = Except.ok { success := false, message := "Failed to get browser context" } ∧
    ((Mesh.LoginToComplyAdvantageMesh env).2).countP isCloseAct = 0 := by
  have h0 := Mesh.meshFetchPhase_close_zero env
  have h1 := Mesh.close0_getAnchorBrowser env cfg
  have hsr := mesh_getAnchorBrowser_res env cfg
  unfold Mesh.LoginToComplyAdvantageMesh
  rcases hfp : Mesh.meshFetchPhase env with ⟨resf, t0⟩
  rw [hfp] at hfetch h0
  have hresf : resf = Except.ok creds := hfetch
  subst hresf
  have h00 : t0.countP isCloseAct = 0 := h0
  rcases hb : Mesh.getAnchorBrowser env cfg with ⟨rs, t1⟩
  rw [hb] at hsr h1
  have hrs : rs = Except.ok () := hsr.trans hses
  subst hrs
  have h10 : t1.countP isCloseAct = 0 := h1
  constructor <;> simp [hval, hfp, hcfg, hb, hctx, List.countP_append, h00, h10]

theorem mesh_noPage_no_close (env : Mesh.MeshEnv)
    (creds : Mesh.ComplyAdvantageCredentials) (cfg : Mesh.Config)
    (hval : Mesh.validateRequiredInputs env = Except.ok ())
    (hfetch : (Mesh.meshFetchPhase env).1 = Except.ok creds)
    (hcfg : Mesh.getConfig env = Except.ok cfg)
    (hses : env.sessionResult = Except.ok ())
    (hctx : env.hasContext = true) (hpg : env.hasPage = false) :
    (Mesh.LoginToComplyAdvantageMesh env).1
        = Except.ok { success := false, message := "Failed to get browser page" } ∧
    ((Mesh.LoginToComplyAdvantageMesh env).2).countP isCloseAct = 0 := by
  have h0 := Mesh.meshFetchPhase_close_zero env
  have h1 := Mesh.close0_getAnchorBrowser env cfg
  have hsr := mesh_getAnchorBrowser_res env cfg
  unfold Mesh.LoginToComplyAdvantageMesh
  rcases hfp : Mesh.meshFetchPhase env with ⟨resf, t0⟩
  rw [hfp] at hfetch h0
  have hresf : resf = Except.ok creds := hfetch
  subst hresf
  have h00 : t0.countP isCloseAct = 0 := h0
  rcases hb : Mesh.getAnchorBrowser env cfg with ⟨rs, t1⟩
  rw [hb] at hsr h1
  have hrs : rs = Except.ok () := hsr.trans hses
  subst hrs
  have h10 : t1.countP isCloseAct = 0 := h1
  constructor <;>
    simp [hval, hfp, hcfg, hb, hctx, hpg, List.countP_append, h00, h10]

theorem linkedin_noPage_no_close (env : Linkedin.LinkedinEnv)
    (cfg : Linkedin.Config) (creds : Linkedin.LinkedinCredentials)
    (hpre : (Linkedin.linkedinPre env).1 = Except.ok (cfg, creds))
    (hses : env.sessionResult = Except.ok ())
    (hctx : env.hasContext = true) (hpg : env.hasPage = false) :
    (Linkedin.LoginToLinkedin env).1
        = Except.ok { success := false, message := "Failed to get browser page" } ∧
    ((Linkedin.LoginToLinkedin env).2).countP isCloseAct = 0 := by
  have h0 := Linkedin.linkedinPre_countP_zero isCloseAct env (fun _ => rfl)
  have h1 := Linkedin.getAnchorBrowser_countP_zero isCloseAct env cfg (creds.otp == "")
    (fun _ => rfl) (fun _ => rfl)
  have hsr : (Linkedin.getAnchorBrowser env cfg (creds.otp == "")).1 = env.sessionResult := by
    rw [Linkedin.getAnchorBrowser_eq]
  unfold Linkedin.LoginToLinkedin
  rcases hp : Linkedin.linkedinPre env with ⟨res, t0⟩
  rw [hp] at hpre h0
  have hres : res = Except.ok (cfg, creds) := hpre
  subst hres
  have h00 : t0.countP isCloseAct = 0 := h0
  rcases hb : Linkedin.getAnchorBrowser env cfg (creds.otp == "") with ⟨rs, t1⟩
  rw [hb] at hsr h1
  have hrs : rs = Except.ok () := hsr.trans hses
  subst hrs
  have h10 : t1.countP isCloseAct = 0 := h1
  constructor <;> simp [hp, hb, hctx, hpg, List.countP_append, h00, h10]

/-- C3 counterexample: with a behaviour whose session is created but
whose browser reports no context, `LoginToLinkedin` returns a failure
result and performs zero browser-close actions — refuting "the browser
is closed exactly once on every exit path, including the paths where
the browser context or page cannot be obtained". -/
theorem claim_C3_counterexample :
    (Linkedin.LoginToLinkedin noContextEnv).1
        = Except.ok { success := false, message := "Failed to get browser context" } ∧
    ((Linkedin.LoginToLinkedin noContextEnv).2).countP isCloseAct = 0 := by
  constructor <;> rfl

/-- C3 (amended): in both selector-driven flows, once the setup phase
and the session creation succeed and a context and page are obtained,
the browser is closed exactly once on every exit path of the try body
(success, classified failure, or caught exception); when the context
(or the page) cannot be obtained after the session was created, the
flow returns an `AttemptFailed` result without closing. -/
theorem claim_C3_amended :
    (∀ (env : Linkedin.LinkedinEnv) cfg creds,
      (Linkedin.linkedinPre env).1 = Except.ok (cfg, creds) →
      env.sessionResult = Except.ok () →
      env.hasContext = true → env.hasPage = true →
      ((Linkedin.LoginToLinkedin env).2).countP isCloseAct = 1) ∧
    (∀ (env : Mesh.MeshEnv) creds cfg,
      Mesh.validateRequiredInputs env = Except.ok () →
      (Mesh.meshFetchPhase env).1 = Except.ok creds →
      Mesh.getConfig env = Except.ok cfg →
      env.sessionResult = Except.ok () →
      env.hasContext = true → env.hasPage = true →
      ((Mesh.LoginToComplyAdvantageMesh env).2).countP isCloseAct = 1) ∧
    (∀ (env : Linkedin.LinkedinEnv) cfg creds,
      (Linkedin.linkedinPre env).1 = Except.ok (cfg, creds) →
      env.sessionResult = Except.ok () →
      env.hasContext = false →
      (Linkedin.LoginToLinkedin env).1
          = Except.ok { success := false, message := "Failed to get browser context" } ∧
      ((Linkedin.LoginToLinkedin env).2).countP isCloseAct = 0) ∧
    (∀ (env : Linkedin.LinkedinEnv) cfg creds,
      (Linkedin.linkedinPre env).1 = Except.ok (cfg, creds) →
      env.sessionResult = Except.ok () →
      env.hasContext = true → env.hasPage = false →
      (Linkedin.LoginToLinkedin env).1
          = Except.ok { success := false, message := "Failed to get browser page" } ∧
      ((Linkedin.LoginToLinkedin env).2).countP isCloseAct = 0) ∧
    (∀ (env : Mesh.MeshEnv) creds cfg,
      Mesh.validateRequiredInputs env = Except.ok () →
      (Mesh.meshFetchPhase env).1 = Except.ok creds →
      Mesh.getConfig env = Except.ok cfg →
      env.sessionResult = Except.ok () →
      env.hasContext = false →
      (Mesh.LoginToComplyAdvantageMesh env).1
          = Except.ok { success := false, message := "Failed to get browser context" } ∧
      ((Mesh.LoginToComplyAdvantageMesh env).2).countP isCloseAct = 0) ∧
    (∀ (env : Mesh.MeshEnv) creds cfg,
      Mesh.validateRequiredInputs env = Except.ok () →
      (Mesh.meshFetchPhase env).1 = Except.ok creds →
      Mesh.getConfig env = Except.ok cfg →
      env.sessionResult = Except.ok () →
      env.hasContext = true → env.hasPage = false →
      (Mesh.LoginToComplyAdvantageMesh env).1
          = Except.ok { success := false, message := "Failed to get browser page" } ∧
      ((Mesh.LoginToComplyAdvantageMesh env).2).countP isCloseAct = 0) :=
  ⟨fun env cfg creds h1 h2 h3 h4 => linkedin_close_count_one env cfg creds h1 h2 h3 h4,
   fun env creds cfg h1 h2 h3 h4 h5 h6 => mesh_close_count_one env creds cfg h1 h2 h3 h4 h5 h6,
   fun env cfg creds h1 h2 h3 => linkedin_noContext_no_close env cfg creds h1 h2 h3,
   fun env cfg creds h1 h2 h3 h4 => linkedin_noPage_no_close env cfg creds h1 h2 h3 h4,
   fun env creds cfg h1 h2 h3 h4 h5 => mesh_noContext_no_close env creds cfg h1 h2 h3 h4 h5,
   fun env creds cfg h1 h2 h3 h4 h5 h6 => mesh_noPage_no_close env creds cfg h1 h2 h3 h4 h5 h6⟩

theorem claim_C3_amended_witness :
    ((Linkedin.LoginToLinkedin baseLinkedinEnv).2).countP isCloseAct = 1 ∧
    ((Mesh.LoginToComplyAdvantageMesh baseMeshEnv).2).countP isCloseAct = 1 ∧
    ((Linkedin.LoginToLinkedin noContextEnv).1
        = Except.ok { success := false, message := "Failed to get browser context" } ∧
      ((Linkedin.LoginToLinkedin noContextEnv).2).countP isCloseAct = 0) ∧
    ((Linkedin.LoginToLinkedin noPageLinkedinEnv).1
        = Except.ok { success := false, message := "Failed to get browser page" } ∧
      ((Linkedin.LoginToLinkedin noPageLinkedinEnv).2).countP isCloseAct = 0) ∧
    ((Mesh.LoginToComplyAdvantageMesh noContextMeshEnv).1
        = Except.ok { success := false, message := "Failed to get browser context" } ∧
      ((Mesh.LoginToComplyAdvantageMesh noContextMeshEnv).2).countP isCloseAct = 0) ∧
    ((Mesh.LoginToComplyAdvantageMesh noPageMeshEnv).1
        = Except.ok { success := false, message := "Failed to get browser page" } ∧
      ((Mesh.LoginToComplyAdvantageMesh noPageMeshEnv).2).countP isCloseAct = 0) := by
  have h1 : Mesh.validateRequiredInputs baseMeshEnv = Except.ok () := by rfl
  have h2 : (Mesh.meshFetchPhase baseMeshEnv).1
      = Except.ok ⟨"org1", "u", "p"⟩ := by rfl
  have h3 : Mesh.getConfig baseMeshEnv = Except.ok ⟨"", "key1", "id1", 10000,
      "https://complyadvantage.com/", "https://mesh.complyadvantage.com/"⟩ := by rfl
  have h1c : Mesh.validateRequiredInputs noContextMeshEnv = Except.ok () := by rfl
  have h2c : (Mesh.meshFetchPhase noContextMeshEnv).1
      = Except.ok ⟨"org1", "u", "p"⟩ := by rfl
  have h3c : Mesh.getConfig noContextMeshEnv = Except.ok ⟨"", "key1", "id1", 10000,
      "https://complyadvantage.com/", "https://mesh.complyadvantage.com/"⟩ := by rfl
  have h1p : Mesh.validateRequiredInputs noPageMeshEnv = Except.ok () := by rfl
  have h2p : (Mesh.meshFetchPhase noPageMeshEnv).1
      = Except.ok ⟨"org1", "u", "p"⟩ := by rfl
  have h3p : Mesh.getConfig noPageMeshEnv = Except.ok ⟨"", "key1", "id1", 10000,
      "https://complyadvantage.com/", "https://mesh.complyadvantage.com/"⟩ := by rfl
  exact ⟨claim_C3_amended.1 baseLinkedinEnv
      ⟨"", "id1", 10000, "https://www.linkedin.com/uas/login"⟩ ⟨"u", "p", ""⟩ rfl rfl rfl rfl,
    claim_C3_amended.2.1 baseMeshEnv _ _ h1 h2 h3 rfl rfl rfl,
    claim_C3_amended.2.2.1 noContextEnv
      ⟨"", "id1", 10000, "https://www.linkedin.com/uas/login"⟩ ⟨"u", "p", ""⟩ rfl rfl rfl,
    claim_C3_amended.2.2.2.1 noPageLinkedinEnv
      ⟨"", "id1", 10000, "https://www.linkedin.com/uas/login"⟩ ⟨"u", "p", ""⟩ rfl rfl rfl rfl,
    claim_C3_amended.2.2.2.2.1 noContextMeshEnv _ _ h1c h2c h3c rfl rfl,
    claim_C3_amended.2.2.2.2.2 noPageMeshEnv _ _ h1p h2p h3p rfl rfl rfl⟩

/-! ## Exception-boundary behaviour of the three flows -/

/-- C1 counterexample: with a reachable collaborator behaviour (valid
configuration, credential provider answering with a bundle whose
password is empty), `LoginToLinkedin` throws the credential-extraction
error past its own boundary instead of returning a structured
`LoginResult` — refuting "every error path, including credential
fetching/extraction, is caught and converted into a failure result". -/
theorem claim_C1_counterexample :
    (Linkedin.LoginToLinkedin noPasswordLinkedinEnv).1
      = Except.error "Missing required credentials. Found: username=true, password=false" := by
  rfl

theorem agent_never_throws (env : Agent.AgentEnv) :
    (Agent.loginWithAgent env).1.isOk = true := by
  unfold Agent.loginWithAgent
  rcases h : Agent.agentAttempt env with ⟨res, t⟩
  rcases res with e | r <;> simp [h, Except.isOk, Except.toBool]

theorem linkedin_boundary (env : Linkedin.LinkedinEnv) :
    (Linkedin.LoginToLinkedin env).1.isOk
      = ((Linkedin.linkedinPre env).1.isOk && env.sessionResult.isOk) := by
  unfold Linkedin.LoginToLinkedin
  have hsr : ∀ cfg es, (Linkedin.getAnchorBrowser env cfg es).1 = env.sessionResult := by
    intro cfg es
    rw [Linkedin.getAnchorBrowser_eq]
  rcases hp : Linkedin.linkedinPre env with ⟨res, t0⟩
  rcases res with e | ⟨config, credentials⟩
  · simp [hp, Except.isOk, Except.toBool]
  · have hsr' := hsr config (credentials.otp == "")
    rcases hb : Linkedin.getAnchorBrowser env config (credentials.otp == "") with ⟨rs, t1⟩
    rw [hb] at hsr'
    rcases rs with eb | u
    · simp [hp, hb, ← hsr', Except.isOk, Except.toBool]
    · by_cases hc : env.hasContext <;> by_cases hg : env.hasPage <;>
        rcases hbd : Linkedin.linkedinBody env config credentials with ⟨rb | rb, t2⟩ <;>
        simp [hp, hb, hbd, hc, hg, ← hsr', Except.isOk, Except.toBool]

theorem mesh_boundary (env : Mesh.MeshEnv) :
    (Mesh.LoginToComplyAdvantageMesh env).1.isOk
      = !((Mesh.validateRequiredInputs env).isOk
          && (Mesh.meshFetchPhase env).1.isOk && !env.sessionResult.isOk) := by
  unfold Mesh.LoginToComplyAdvantageMesh
  rcases hv : Mesh.validateRequiredInputs env with e | u
  · simp [hv, Except.isOk, Except.toBool]
  · have hcfg : ∃ cfg, Mesh.getConfig env = Except.ok cfg := by
      unfold Mesh.validateRequiredInputs at hv
      rcases hc : Mesh.getConfig env with e2 | cfg
      · rw [hc] at hv
        simp [Bind.bind, Except.bind] at hv
      · exact ⟨cfg, rfl⟩
    obtain ⟨cfg, hc⟩ := hcfg
    rcases hf : Mesh.meshFetchPhase env with ⟨resf, t0⟩
    rcases resf with e2 | creds
    · simp [hv, hf, Except.isOk, Except.toBool]
    · have hsr := mesh_getAnchorBrowser_res env cfg
      rcases hb : Mesh.getAnchorBrowser env cfg with ⟨rs, t1⟩
      rw [hb] at hsr
      rcases rs with eb | u2
      · simp [hv, hf, hc, hb, ← hsr, Except.isOk, Except.toBool]
      · by_cases hcx : env.hasContext <;> by_cases hg : env.hasPage <;>
          rcases hbd : Mesh.meshBody env cfg creds with ⟨rb | rb, t2⟩ <;>
          simp [hv, hf, hc, hb, hbd, hcx, hg, ← hsr, Except.isOk, Except.toBool]

/-- C1 (amended): `loginWithAgent` never throws past its boundary; the
two selector-driven flows have a narrower boundary than claimed — the
LinkedIn flow returns a structured result exactly when its
config/fetch/extraction phase and the browser-session creation all
succeed (any error there propagates to the caller), and the Mesh flow
returns a structured result except when browser-session creation fails
after validation and credential extraction succeeded (that error
propagates); every error inside the try bodies is caught. -/
theorem claim_C1_amended :
    (∀ env : Agent.AgentEnv, (Agent.loginWithAgent env).1.isOk = true) ∧
    (∀ env : Linkedin.LinkedinEnv,
      (Linkedin.LoginToLinkedin env).1.isOk
        = ((Linkedin.linkedinPre env).1.isOk && env.sessionResult.isOk)) ∧
    (∀ env : Mesh.MeshEnv,
      (Mesh.LoginToComplyAdvantageMesh env).1.isOk
        = !((Mesh.validateRequiredInputs env).isOk
            && (Mesh.meshFetchPhase env).1.isOk && !env.sessionResult.isOk)) :=
  ⟨agent_never_throws, linkedin_boundary, mesh_boundary⟩

/-! ## Credential extraction (C4) -/

/-- C4 counterexample: a bundle carrying a non-empty username and
password but no organization field makes the Mesh extraction fail, so
"extraction succeeds if and only if username and password are
non-empty" is false on the code (organization is a third required
field there). -/
theorem claim_C4_counterexample :
    Mesh.parseComplyAdvantageCredentials [Cred.username_password "u" "p"]
      = Except.error
          "Missing required credentials. Found: organization=false, username=true, password=true" := by
  rfl

theorem linkedin_parse_iff (creds : List Cred) :
    (Linkedin.parseLinkedinCredentials creds).isOk = true ↔
      ((Linkedin.linkedinScan creds).username ≠ ""
        ∧ (Linkedin.linkedinScan creds).password ≠ "") := by
  unfold Linkedin.parseLinkedinCredentials
  dsimp only
  split_ifs with hc
  · simp [Except.isOk, Except.toBool]
    tauto
  · simp [Except.isOk, Except.toBool]
    tauto

theorem mesh_parse_iff (creds : List Cred) :
    (Mesh.parseComplyAdvantageCredentials creds).isOk = true ↔
      ((Mesh.meshScan creds).organization ≠ ""
        ∧ (Mesh.meshScan creds).username ≠ ""
        ∧ (Mesh.meshScan creds).password ≠ "") := by
  unfold Mesh.parseComplyAdvantageCredentials
  dsimp only
  split_ifs with hc
  · simp [Except.isOk, Except.toBool]
    tauto
  · simp [Except.isOk, Except.toBool]
    tauto

theorem linkedin_parse_error_msg (creds : List Cred)
    (h : (Linkedin.linkedinScan creds).username = ""
          ∨ (Linkedin.linkedinScan creds).password = "") :
    Linkedin.parseLinkedinCredentials creds
      = Except.error ("Missing required credentials. Found: username="
          ++ truthy (Linkedin.linkedinScan creds).username
          ++ ", password=" ++ truthy (Linkedin.linkedinScan creds).password) := by
  unfold Linkedin.parseLinkedinCredentials
  dsimp only
  rw [if_pos h]

theorem mesh_parse_error_msg (creds : List Cred)
    (h : (Mesh.meshScan creds).organization = ""
          ∨ (Mesh.meshScan creds).username = ""
          ∨ (Mesh.meshScan creds).password = "") :
    Mesh.parseComplyAdvantageCredentials creds
      = Except.error ("Missing required credentials. Found: organization="
          ++ truthy (Mesh.meshScan creds).organization
          ++ ", username=" ++ truthy (Mesh.meshScan creds).username
          ++ ", password=" ++ truthy (Mesh.meshScan creds).password) := by
  unfold Mesh.parseComplyAdvantageCredentials
  dsimp only
  rw [if_pos h]

theorem linkedin_parse_error_ne (creds : List Cred) (m : String)
    (h : Linkedin.parseLinkedinCredentials creds = Except.error m) : m ≠ "" := by
  unfold Linkedin.parseLinkedinCredentials at h
  dsimp only at h
  split_ifs at h with hc
  · injection h with h2
    subst h2
    unfold truthy
    split_ifs <;> decide

theorem mesh_parse_error_ne (creds : List Cred) (m : String)
    (h : Mesh.parseComplyAdvantageCredentials creds = Except.error m) : m ≠ "" := by
  unfold Mesh.parseComplyAdvantageCredentials at h
  dsimp only at h
  split_ifs at h with hc
  · injection h with h2
    subst h2
    unfold truthy
    split_ifs <;> decide

theorem linkedin_parse_fail_flow (env : Linkedin.LinkedinEnv) (cfg : Linkedin.Config)
    (resp : IdentityResponse) (m : String)
    (hcfg : Linkedin.getConfig env = Except.ok cfg)
    (hfetch : env.fetchResult = Except.ok resp)
    (hparse : Linkedin.parseLinkedinCredentials resp.credentials = Except.error m) :
    Linkedin.LoginToLinkedin env
      = (Except.error m, [Act.fetchCredentials cfg.identityId]) := by
  have hpre : Linkedin.linkedinPre env = (Except.error m, [Act.fetchCredentials cfg.identityId]) := by
    simp [Linkedin.linkedinPre_eq, hcfg, hfetch, hparse]
  unfold Linkedin.LoginToLinkedin
  simp [hpre]

theorem mesh_parse_fail_flow (env : Mesh.MeshEnv) (cfg : Mesh.Config)
    (resp : IdentityResponse) (m : String)
    (hval : Mesh.validateRequiredInputs env = Except.ok ())
    (hcfg : Mesh.getConfig env = Except.ok cfg)
    (hfetch : env.fetchResult = Except.ok resp)
    (hparse : Mesh.parseComplyAdvantageCredentials resp.credentials = Except.error m) :
    Mesh.LoginToComplyAdvantageMesh env
      = (Except.ok { success := false, message := m },
         [Act.fetchCredentials cfg.identityId]) := by
  have hm := mesh_parse_error_ne resp.credentials m hparse
  have hfp : Mesh.meshFetchPhase env
      = (Except.error m, [Act.fetchCredentials cfg.identityId]) := by
    simp [Mesh.meshFetchPhase_eq, hcfg, hfetch, hparse]
  unfold Mesh.LoginToComplyAdvantageMesh
  simp [hval, hfp, hm]

/-- C4 (amended): LinkedIn extraction succeeds iff username and
password are non-empty after the record scan, while ComplyAdvantage
extraction additionally requires a non-empty organization field; on
failure the error message reports the presence of each of that flow's
required fields; on an extraction failure no browser session is
created and no page-driver call is made — but only the Mesh flow
converts the failure into a returned failure result, the LinkedIn flow
lets the extraction error escape to its caller. -/
theorem claim_C4_amended :
    (∀ creds : List Cred, (Linkedin.parseLinkedinCredentials creds).isOk = true ↔
      ((Linkedin.linkedinScan creds).username ≠ ""
        ∧ (Linkedin.linkedinScan creds).password ≠ "")) ∧
    (∀ creds : List Cred, (Mesh.parseComplyAdvantageCredentials creds).isOk = true ↔
      ((Mesh.meshScan creds).organization ≠ ""
        ∧ (Mesh.meshScan creds).username ≠ ""
        ∧ (Mesh.meshScan creds).password ≠ "")) ∧
    (∀ creds : List Cred,
      ((Linkedin.linkedinScan creds).username = ""
        ∨ (Linkedin.linkedinScan creds).password = "") →
      Linkedin.parseLinkedinCredentials creds
        = Except.error ("Missing required credentials. Found: username="
            ++ truthy (Linkedin.linkedinScan creds).username
            ++ ", password=" ++ truthy (Linkedin.linkedinScan creds).password)) ∧
    (∀ (env : Linkedin.LinkedinEnv) cfg resp m,
      Linkedin.getConfig env = Except.ok cfg →
      env.fetchResult = Except.ok resp →
      Linkedin.parseLinkedinCredentials resp.credentials = Except.error m →
      Linkedin.LoginToLinkedin env
        = (Except.error m, [Act.fetchCredentials cfg.identityId])) ∧
    (∀ (env : Mesh.MeshEnv) cfg resp m,
      Mesh.validateRequiredInputs env = Except.ok () →
      Mesh.getConfig env = Except.ok cfg →
      env.fetchResult = Except.ok resp →
      Mesh.parseComplyAdvantageCredentials resp.credentials = Except.error m →
      Mesh.LoginToComplyAdvantageMesh env
        = (Except.ok { success := false, message := m },
           [Act.fetchCredentials cfg.identityId])) :=
  ⟨linkedin_parse_iff, mesh_parse_iff, linkedin_parse_error_msg,
   linkedin_parse_fail_flow, mesh_parse_fail_flow⟩

theorem claim_C4_amended_witness :
    ((Linkedin.parseLinkedinCredentials [Cred.username_password "u" "p"]).isOk = true ↔
      (("u" : String) ≠ "" ∧ ("p" : String) ≠ "")) ∧
    Linkedin.parseLinkedinCredentials [Cred.username_password "u" ""]
      = Except.error "Missing required credentials. Found: username=true, password=false" ∧
    Linkedin.LoginToLinkedin noPasswordLinkedinEnv
      = (Except.error "Missing required credentials. Found: username=true, password=false",
         [Act.fetchCredentials "id1"]) ∧
    Mesh.LoginToComplyAdvantageMesh noOrgMeshEnv
      = (Except.ok { success := false, message := "Missing required credentials. Found: organization=false, username=true, password=true" }, [Act.fetchCredentials "id1"]) := by
  refine ⟨claim_C4_amended.1 _, ?_, ?_, ?_⟩
  · have := claim_C4_amended.2.2.1 [Cred.username_password "u" ""] (Or.inr rfl)
    simpa using this
  · exact claim_C4_amended.2.2.2.1 noPasswordLinkedinEnv
      ⟨"", "id1", 10000, "https://www.linkedin.com/uas/login"⟩
      ⟨"Ada", [Cred.username_password "u" ""]⟩ _ rfl rfl rfl
  · exact claim_C4_amended.2.2.2.2 noOrgMeshEnv
      ⟨"", "key1", "id1", 10000, "https://complyadvantage.com/", "https://mesh.complyadvantage.com/"⟩
      ⟨"Ada", [Cred.username_password "u" "p"]⟩ _ (by rfl) rfl rfl rfl

/-! ## OTP routing (C7) -/

/-- C7: with a non-empty OTP, the second-factor step routes as
follows: a visible prioritized combined-code selector selects the
single-field tactic (clear, fill the whole code, Enter raced against a
45s navigation wait); otherwise at least six digit boxes select the
multi-field tactic (digits filled left-to-right by index, Enter
pressed on the last filled box raced against the navigation wait);
with neither layout the step fails fatally with
"OTP inputs not found"; and when the post-submit verification fails
the fallback performs at most one click on a generic
submit/verify/continue control. -/
theorem claim_C7_otp_routing :
    (∀ (env : Linkedin.LinkedinEnv) (otp : String) (step t : Nat) (sel : String),
      Linkedin.singleOtpSelectors.find? env.visible = some sel →
      Linkedin.submitOtpCode env otp step t =
        (Except.ok (),
         Linkedin.singleProbes
           ++ [Act.fill sel 0 "", Act.fill sel 0 otp,
               Act.waitForNavigation 45000, Act.press sel 0 "Enter",
               Act.waitForUrl Linkedin.feedUrlPattern (max t 10000)]
           ++ (if env.otpVerify.waitOk then [] else [Act.currentUrlCheck])
           ++ (if feedCheck env.otpVerify then []
               else (Linkedin.clickCommonSubmit env).2))) ∧
    (∀ (env : Linkedin.LinkedinEnv) (otp : String) (step t : Nat),
      Linkedin.singleOtpSelectors.find? env.visible = none →
      6 ≤ env.digitCount →
      Linkedin.submitOtpCode env otp step t =
        (Except.ok (),
         Linkedin.singleProbes ++ [Act.countDigitInputs, Act.countDigitInputs]
           ++ Linkedin.otpDigitActions otp.data (min env.digitCount otp.data.length)
           ++ [Act.waitForNavigation 45000,
               Act.press Linkedin.digitInputsSelector
                 (min env.digitCount otp.data.length - 1) "Enter",
               Act.waitForUrl Linkedin.feedUrlPattern (max t 10000)]
           ++ (if env.otpVerify.waitOk then [] else [Act.currentUrlCheck])
           ++ (if feedCheck env.otpVerify then []
               else (Linkedin.clickCommonSubmit env).2))) ∧
    (∀ (env : Linkedin.LinkedinEnv) (otp : String) (step t : Nat),
      Linkedin.singleOtpSelectors.find? env.visible = none →
      env.digitCount < 6 →
      Linkedin.submitOtpCode env otp step t =
        (Except.error "OTP inputs not found",
         Linkedin.singleProbes ++ [Act.countDigitInputs])) ∧
    (∀ env : Linkedin.LinkedinEnv,
      ((Linkedin.clickCommonSubmit env).2).countP isClickAct ≤ 1) := by
  refine ⟨Linkedin.submitOtpCode_single, Linkedin.submitOtpCode_multi,
          Linkedin.submitOtpCode_none, fun env => ?_⟩
  exact Linkedin.countP_click_le isClickAct env (fun s => rfl) (fun k => rfl)

theorem claim_C7_witness :
    (Linkedin.singleOtpSelectors.find? otpSingleEnv.visible
        = some "input[name=\"code\"]"
      ∧ Linkedin.submitOtpCode otpSingleEnv "654321" 6 10000 =
          (Except.ok (),
           Linkedin.singleProbes
             ++ [Act.fill "input[name=\"code\"]" 0 "",
                 Act.fill "input[name=\"code\"]" 0 "654321",
                 Act.waitForNavigation 45000,
                 Act.press "input[name=\"code\"]" 0 "Enter",
                 Act.waitForUrl Linkedin.feedUrlPattern (max 10000 10000)]
             ++ (if otpSingleEnv.otpVerify.waitOk then [] else [Act.currentUrlCheck])
             ++ (if feedCheck otpSingleEnv.otpVerify then []
                 else (Linkedin.clickCommonSubmit otpSingleEnv).2))) ∧
    (Linkedin.singleOtpSelectors.find? otpMultiEnv.visible = none
      ∧ 6 ≤ otpMultiEnv.digitCount
      ∧ Linkedin.submitOtpCode otpMultiEnv "654321" 6 10000 =
          (Except.ok (),
           Linkedin.singleProbes ++ [Act.countDigitInputs, Act.countDigitInputs]
             ++ Linkedin.otpDigitActions ("654321" : String).data
                  (min otpMultiEnv.digitCount ("654321" : String).data.length)
             ++ [Act.waitForNavigation 45000,
                 Act.press Linkedin.digitInputsSelector
                   (min otpMultiEnv.digitCount ("654321" : String).data.length - 1) "Enter",
                 Act.waitForUrl Linkedin.feedUrlPattern (max 10000 10000)]
             ++ (if otpMultiEnv.otpVerify.waitOk then [] else [Act.currentUrlCheck])
             ++ (if feedCheck otpMultiEnv.otpVerify then []
                 else (Linkedin.clickCommonSubmit otpMultiEnv).2))) ∧
    (Linkedin.singleOtpSelectors.find? otpMissingEnv.visible = none
      ∧ otpMissingEnv.digitCount < 6
      ∧ Linkedin.submitOtpCode otpMissingEnv "654321" 6 10000 =
          (Except.error "OTP inputs not found",
           Linkedin.singleProbes ++ [Act.countDigitInputs])) := by
  refine ⟨⟨by rfl, ?_⟩, ⟨by rfl, by decide, ?_⟩, ⟨by rfl, by decide, ?_⟩⟩
  · exact claim_C7_otp_routing.1 otpSingleEnv "654321" 6 10000 _ (by rfl)
  · exact claim_C7_otp_routing.2.1 otpMultiEnv "654321" 6 10000 (by rfl) (by decide)
  · exact claim_C7_otp_routing.2.2.1 otpMissingEnv "654321" 6 10000 (by rfl) (by decide)

/-! ## Terminal verification timeout floor (C8) -/

/-- C8 counterexample: in the LinkedIn flow every URL wait — the
terminal success verification included — runs with effective timeout
`max timeoutMs 10000`; with the configured 10s step timeout both waits
of a full attempt use 10000 ms, far below a 60-second floor, so the
claimed "floor on the order of 60 seconds" is false for the LinkedIn
terminal verification (only the Mesh flow has the 60s floor). -/
theorem claim_C8_counterexample :
    ((Linkedin.LoginToLinkedin slowRedirectEnv).2).filter isWaitUrlAct
      = [Act.waitForUrl Linkedin.feedUrlPattern 10000,
         Act.waitForUrl Linkedin.feedUrlPattern 10000]
    ∧ (10000 : Nat) < 60000 := by
  exact ⟨by rfl, by decide⟩

theorem countP_verify_zero_url (p : Act → Bool) (o : UrlWaitOracle) (step t fb : Nat)
    (h1 : p (Act.waitForUrl Linkedin.feedUrlPattern (max t fb)) = false)
    (h2 : p Act.currentUrlCheck = false) :
    ((Linkedin.verifyLogin o step t fb).2).countP p = 0 := by
  rw [Linkedin.verifyLogin_eq]
  split_ifs <;> simp [h1, h2]

theorem countP_submitOtp_zero_url (p : Act → Bool) (env : Linkedin.LinkedinEnv)
    (otp : String) (step t : Nat)
    (hprobe : ∀ s, p (Act.isVisibleCheck s) = false)
    (hcount : p Act.countDigitInputs = false)
    (hfill : ∀ s i v, p (Act.fill s i v) = false)
    (htype : ∀ s i v, p (Act.typeText s i v) = false)
    (hnav : ∀ k, p (Act.waitForNavigation k) = false)
    (hurl : p (Act.waitForUrl Linkedin.feedUrlPattern (max t 10000)) = false)
    (hcur : p Act.currentUrlCheck = false)
    (hpress : ∀ s i, isOtpField s = true → p (Act.press s i "Enter") = false)
    (hclick : ∀ s i, s ∈ Linkedin.submitSelectors → p (Act.click s i) = false) :
    ((Linkedin.submitOtpCode env otp step t).2).countP p = 0 := by
  have hclick0 := Linkedin.countP_click_zero p env hprobe hnav hclick
  rcases h : Linkedin.singleOtpSelectors.find? env.visible with _ | sel
  · rcases Nat.lt_or_ge env.digitCount 6 with hd | hd
    · rw [Linkedin.submitOtpCode_none env otp step t h hd]
      simp [List.countP_append, Linkedin.singleProbes,
        countP_probes_zero p _ hprobe, hcount]
    · rw [Linkedin.submitOtpCode_multi env otp step t h hd]
      have hpd : isOtpField Linkedin.digitInputsSelector = true := by
        simp [isOtpField]
      have hdig : ∀ tot : Nat, (Linkedin.otpDigitActions otp.data tot).countP p = 0 :=
        fun tot =>
          Linkedin.countP_otpDigitActions_zero p otp.data tot (fun i v => hfill _ i v)
            (fun i v => htype _ i v)
      by_cases hw : env.otpVerify.waitOk <;> by_cases hfc : feedCheck env.otpVerify <;>
        simp [List.countP_append, List.countP_cons, Linkedin.singleProbes,
          countP_probes_zero p _ hprobe, hcount, hdig, hnav, hurl, hcur,
          hpress _ _ hpd, hclick0, hw, hfc, -List.countP_eq_zero]
  · rw [Linkedin.submitOtpCode_single env otp step t sel h]
    have hps : isOtpField sel = true := Linkedin.isOtpField_of_find sel ⟨env.visible, h⟩
    by_cases hw : env.otpVerify.waitOk <;> by_cases hfc : feedCheck env.otpVerify <;>
      simp [List.countP_append, List.countP_cons, Linkedin.singleProbes,
        countP_probes_zero p _ hprobe, hfill, hnav, hurl, hcur,
        hpress _ _ hps, hclick0, hw, hfc, -List.countP_eq_zero]

theorem linkedinBody_countP_zero_at (p : Act → Bool) (env : Linkedin.LinkedinEnv)
    (config : Linkedin.Config) (credentials : Linkedin.LinkedinCredentials)
    (hnav0 : ((Linkedin.navigateToHomepage env config).2).countP p = 0)
    (hver0 : ∀ o step,
      ((Linkedin.verifyLogin o step config.timeoutMs 10000).2).countP p = 0)
    (huser0 : ∀ u, ((Linkedin.enterUsername env u config.timeoutMs).2).countP p = 0)
    (hfetch0 : ∀ r i, ((Linkedin.fetchIdentityCredentials r i).2).countP p = 0)
    (hpwd0 : ∀ pw,
      ((Linkedin.enterPasswordAndSubmit env pw config.timeoutMs).2).countP p = 0)
    (hotp0 : ∀ o s, ((Linkedin.submitOtpCode env o s config.timeoutMs).2).countP p = 0) :
    ((Linkedin.linkedinBody env config credentials).2).countP p = 0 := by
  unfold Linkedin.linkedinBody
  simp only [M.bind_def, M.pure_def]
  apply M.countP_bindM_zero p _ _ hnav0
  intro _
  apply M.countP_bindM_zero p _ _ (hver0 _ _)
  intro loggedIn
  by_cases hl : loggedIn = true <;> simp only [hl, if_true, if_false, Bool.false_eq_true]
  · simp
  · apply M.countP_bindM_zero p _ _ (huser0 _)
    intro _
    apply M.countP_bindM_zero p _ _ (hpwd0 _)
    intro _
    by_cases ho : credentials.otp ≠ ""
    · rw [if_pos ho]
      apply M.countP_bindM_zero p _ _ (hfetch0 _ _)
      intro upd
      apply M.countP_bindM_zero p _ _ (by simp [liftE])
      intro c2
      apply M.countP_bindM_zero p _ _ (hotp0 _ _)
      intro _
      apply M.countP_bindM_zero p _ _ (by simp)
      intro y
      apply M.countP_bindM_zero p _ _ (hver0 _ _)
      intro fl
      by_cases hf2 : fl = true <;> simp [hf2]
    · rw [if_neg ho]
      apply M.countP_bindM_zero p _ _ (by simp)
      intro y
      apply M.countP_bindM_zero p _ _ (hver0 _ _)
      intro fl
      by_cases hf2 : fl = true <;> simp [hf2]

/-- C8 (amended): the Mesh terminal verification waits for the
authenticated-area URL with effective timeout `max timeoutMs 60000`
(a 60-second floor) and on a wait failure re-checks the current URL
exactly once; the LinkedIn URL verification has the same shape but
with the fallback each call site passes, and every URL wait of the
LinkedIn attempt body — the terminal one included — runs with
effective timeout `max timeoutMs 10000`, a 10-second floor, not a
60-second one. -/
theorem claim_C8_amended :
    (∀ (env : Mesh.MeshEnv) (config : Mesh.Config),
      Mesh.verifyMeshLogin env config =
        (Except.ok (meshCheck env.meshVerify),
         Act.waitForUrl Mesh.meshUrlPattern (max config.timeoutMs 60000) ::
           (if env.meshVerify.waitOk then [] else [Act.currentUrlCheck]))) ∧
    (∀ (o : UrlWaitOracle) (step t fb : Nat),
      Linkedin.verifyLogin o step t fb =
        (Except.ok (feedCheck o),
         Act.waitForUrl Linkedin.feedUrlPattern (max t fb) ::
           (if o.waitOk then [] else [Act.currentUrlCheck]))) ∧
    (∀ (env : Mesh.MeshEnv) (config : Mesh.Config) (a : Act),
      a ∈ (Mesh.verifyMeshLogin env config).2 → isWaitUrlAct a = true →
      a = Act.waitForUrl Mesh.meshUrlPattern (max config.timeoutMs 60000)
        ∧ 60000 ≤ max config.timeoutMs 60000) ∧
    (∀ (env : Linkedin.LinkedinEnv) (config : Linkedin.Config)
        (credentials : Linkedin.LinkedinCredentials),
      ((Linkedin.linkedinBody env config credentials).2).countP
        (fun a => isWaitUrlAct a
          && !(a == Act.waitForUrl Linkedin.feedUrlPattern (max config.timeoutMs 10000)))
        = 0) := by
  refine ⟨Mesh.verifyMeshLogin_eq, Linkedin.verifyLogin_eq, ?_, ?_⟩
  · intro env config a ha hw
    rw [Mesh.verifyMeshLogin_eq] at ha
    rcases List.mem_cons.mp ha with rfl | h2
    · exact ⟨rfl, Nat.le_max_right _ _⟩
    · by_cases hv : env.meshVerify.waitOk
      · rw [if_pos hv] at h2
        simp at h2
      · rw [if_neg hv] at h2
        rcases List.mem_singleton.mp h2 with rfl
        simp [isWaitUrlAct] at hw
  · intro env config credentials
    apply linkedinBody_countP_zero_at
    · exact Linkedin.countP_nav_zero _ env config (fun u t => rfl) (fun s => rfl)
    · intro o step
      apply countP_verify_zero_url
      · simp [isWaitUrlAct]
      · rfl
    · intro u
      exact Linkedin.countP_user_zero _ env u config.timeoutMs
        (fun s k => rfl) (fun s i v => rfl) rfl
    · intro r i
      exact Linkedin.countP_fetch_zero _ r i (fun s => rfl)
    · intro pw
      exact Linkedin.countP_pwd_zero _ env pw config.timeoutMs
        (fun s k => rfl) (fun s i v => rfl) rfl
    · intro o s
      apply countP_submitOtp_zero_url _ env o s config.timeoutMs
        (fun s => rfl) rfl (fun s i v => rfl) (fun s i v => rfl) (fun k => rfl)
        (by simp [isWaitUrlAct]) rfl (fun s i _ => rfl) (fun s i _ => rfl)

theorem claim_C8_amended_witness :
    Mesh.verifyMeshLogin baseMeshEnv
        ⟨"", "key1", "id1", 10000, "https://complyadvantage.com/", "https://mesh.complyadvantage.com/"⟩
      = (Except.ok (meshCheck baseMeshEnv.meshVerify),
         Act.waitForUrl Mesh.meshUrlPattern (max 10000 60000) ::
           (if baseMeshEnv.meshVerify.waitOk then [] else [Act.currentUrlCheck])) ∧
    (Act.waitForUrl Mesh.meshUrlPattern (max 10000 60000)
        ∈ (Mesh.verifyMeshLogin baseMeshEnv
            ⟨"", "key1", "id1", 10000, "https://complyadvantage.com/", "https://mesh.complyadvantage.com/"⟩).2
      ∧ isWaitUrlAct (Act.waitForUrl Mesh.meshUrlPattern (max 10000 60000)) = true
      ∧ Act.waitForUrl Mesh.meshUrlPattern (max 10000 60000)
          = Act.waitForUrl Mesh.meshUrlPattern
              (max (⟨"", "key1", "id1", 10000, "https://complyadvantage.com/", "https://mesh.complyadvantage.com/"⟩ : Mesh.Config).timeoutMs 60000)
      ∧ 60000 ≤ max (10000 : Nat) 60000) ∧
    ((Linkedin.linkedinBody slowRedirectEnv
        ⟨"", "id1", 10000, "https://www.linkedin.com/uas/login"⟩
        ⟨"u", "p", ""⟩).2).countP
      (fun a => isWaitUrlAct a
        && !(a == Act.waitForUrl Linkedin.feedUrlPattern (max 10000 10000))) = 0 := by
  refine ⟨claim_C8_amended.1 baseMeshEnv _, ⟨by decide, by decide, ?_, by decide⟩, ?_⟩
  · exact (claim_C8_amended.2.2.1 baseMeshEnv
      ⟨"", "key1", "id1", 10000, "https://complyadvantage.com/", "https://mesh.complyadvantage.com/"⟩
      (Act.waitForUrl Mesh.meshUrlPattern (max 10000 60000)) (by decide) (by decide)).1
  · exact claim_C8_amended.2.2.2 slowRedirectEnv
      ⟨"", "id1", 10000, "https://www.linkedin.com/uas/login"⟩ ⟨"u", "p", ""⟩

/-! ## Fallback-selector priority (C9) -/

theorem find_first_match (vis : String → Bool) (l : List String) (sel : String) :
    l.find? vis = some sel ↔
      vis sel = true ∧ ∃ pre post, l = pre ++ sel :: post ∧ ∀ s ∈ pre, vis s = false := by
  rw [List.find?_eq_some]
  simp

theorem clickCommonSubmit_trace (env : Linkedin.LinkedinEnv) :
    (Linkedin.clickCommonSubmit env).2 =
      Linkedin.submitProbes ++
        (match Linkedin.submitSelectors.find? env.visible with
         | some sel => [Act.waitForNavigation 45000, Act.click sel 0]
         | none => []) := by
  rcases h : Linkedin.submitSelectors.find? env.visible with _ | sel
  · rw [Linkedin.clickCommonSubmit_none env h]
    simp
  · rw [Linkedin.clickCommonSubmit_some env sel h]

theorem locateOtpInputs_trace (env : Linkedin.LinkedinEnv) :
    (Linkedin.locateOtpInputs env).2 =
      Linkedin.singleProbes ++
        (match Linkedin.singleOtpSelectors.find? env.visible with
         | some _ => []
         | none => [Act.countDigitInputs]) := by
  rcases h : Linkedin.singleOtpSelectors.find? env.visible with _ | sel
  · rcases Nat.lt_or_ge env.digitCount 6 with hd | hd
    · rw [Linkedin.locateOtpInputs_none env h hd]
    · rw [Linkedin.locateOtpInputs_multi env h hd]
  · rw [Linkedin.locateOtpInputs_single env sel h]
    simp

/-- C9: each fallback-selector step first probes every candidate
selector for visibility (the probe actions appear for the whole
candidate list, in declared order, before any further action), and the
chosen selector is exactly the first visible one in the declared list
order: `find?` returns `sel` precisely when `sel` is visible and every
candidate before it in the list is not.  In particular, when two
candidates are visible the earlier one is chosen, and the choice is a
pure function of the visibility behaviour, identical on every run. -/
theorem claim_C9_selector_priority :
    (∀ env : Linkedin.LinkedinEnv,
      (Linkedin.clickCommonSubmit env).2 =
        Linkedin.submitProbes ++
          (match Linkedin.submitSelectors.find? env.visible with
           | some sel => [Act.waitForNavigation 45000, Act.click sel 0]
           | none => [])) ∧
    (∀ env : Linkedin.LinkedinEnv,
      (Linkedin.locateOtpInputs env).2 =
        Linkedin.singleProbes ++
          (match Linkedin.singleOtpSelectors.find? env.visible with
           | some _ => []
           | none => [Act.countDigitInputs])) ∧
    (∀ (env : Linkedin.LinkedinEnv) (sel : String),
      Linkedin.submitSelectors.find? env.visible = some sel →
        (Linkedin.clickCommonSubmit env).1 = Except.ok true ∧
        Act.click sel 0 ∈ (Linkedin.clickCommonSubmit env).2) ∧
    (∀ (env : Linkedin.LinkedinEnv) (sel : String),
      Linkedin.singleOtpSelectors.find? env.visible = some sel →
        (Linkedin.locateOtpInputs env).1
          = Except.ok (some (Linkedin.OtpInputResult.single sel))) ∧
    (∀ (env : Linkedin.LinkedinEnv) (sel : String),
      Linkedin.submitSelectors.find? env.visible = some sel ↔
        env.visible sel = true ∧ ∃ pre post,
          Linkedin.submitSelectors = pre ++ sel :: post
            ∧ ∀ s ∈ pre, env.visible s = false) ∧
    (∀ (env : Linkedin.LinkedinEnv) (sel : String),
      Linkedin.singleOtpSelectors.find? env.visible = some sel ↔
        env.visible sel = true ∧ ∃ pre post,
          Linkedin.singleOtpSelectors = pre ++ sel :: post
            ∧ ∀ s ∈ pre, env.visible s = false) := by
  refine ⟨clickCommonSubmit_trace, locateOtpInputs_trace, ?_, ?_, ?_, ?_⟩
  · intro env sel h
    rw [Linkedin.clickCommonSubmit_some env sel h]
    simp
  · intro env sel h
    rw [Linkedin.locateOtpInputs_single env sel h]
  · intro env sel
    exact find_first_match env.visible Linkedin.submitSelectors sel
  · intro env sel
    exact find_first_match env.visible Linkedin.singleOtpSelectors sel

theorem claim_C9_witness :
    (Linkedin.submitSelectors.find? twoSubmitsEnv.visible
        = some "button:has-text(\"Verify\")"
      ∧ (Linkedin.clickCommonSubmit twoSubmitsEnv).1 = Except.ok true
      ∧ Act.click "button:has-text(\"Verify\")" 0
          ∈ (Linkedin.clickCommonSubmit twoSubmitsEnv).2) ∧
    (Linkedin.singleOtpSelectors.find? otpSingleEnv.visible
        = some "input[name=\"code\"]"
      ∧ (Linkedin.locateOtpInputs otpSingleEnv).1
          = Except.ok (some (Linkedin.OtpInputResult.single "input[name=\"code\"]"))) ∧
    (twoSubmitsEnv.visible "button:has-text(\"Verify\")" = true ∧ ∃ pre post,
      Linkedin.submitSelectors = pre ++ "button:has-text(\"Verify\")" :: post
        ∧ ∀ s ∈ pre, twoSubmitsEnv.visible s = false) := by
  refine ⟨⟨by rfl, ?_⟩, ⟨by rfl, ?_⟩, ?_⟩
  · exact claim_C9_selector_priority.2.2.1 twoSubmitsEnv _ (by rfl)
  · exact claim_C9_selector_priority.2.2.2.1 otpSingleEnv _ (by rfl)
  · exact (claim_C9_selector_priority.2.2.2.2.1 twoSubmitsEnv
      "button:has-text(\"Verify\")").mp (by rfl)

/-! ## OTP credential re-fetch (C10) -/

theorem linkedinBody_refetch_parse_error (env : Linkedin.LinkedinEnv)
    (config : Linkedin.Config) (creds : Linkedin.LinkedinCredentials)
    (resp2 : IdentityResponse) (m : String)
    (hgoto : env.gotoHomeOk = true)
    (hpre : feedCheck env.precheck = false)
    (hu : env.visible Linkedin.usernameSelector = true)
    (hv : env.visible Linkedin.passwordSelector = true)
    (ho : creds.otp ≠ "")
    (hrf : env.refetchResult = Except.ok resp2)
    (hp2 : Linkedin.parseLinkedinCredentials resp2.credentials = Except.error m) :
    Linkedin.linkedinBody env config creds
      = (Except.error m,
         Linkedin.linkedinOtpPrefix env config creds
           ++ [Act.fetchCredentials config.identityId]) := by
  have hwo : env.precheck.waitOk = false := by
    simp [feedCheck] at hpre
    exact hpre.1
  have hnav : Linkedin.navigateToHomepage env config
      = (Except.ok (), [Act.navigate config.homeUrl config.timeoutMs]) := by
    simp [Linkedin.navigateToHomepage_eq, hgoto]
  have huser : Linkedin.enterUsername env creds.username config.timeoutMs
      = (Except.ok (), [Act.waitVisibleFor Linkedin.usernameSelector config.timeoutMs,
          Act.fill Linkedin.usernameSelector 0 creds.username,
          Act.press Linkedin.usernameSelector 0 "Tab"]) := by
    simp [Linkedin.enterUsername_eq, hu]
  have hpwd : Linkedin.enterPasswordAndSubmit env creds.password config.timeoutMs
      = (Except.ok (), [Act.waitVisibleFor Linkedin.passwordSelector config.timeoutMs,
          Act.fill Linkedin.passwordSelector 0 creds.password,
          Act.press Linkedin.passwordSelector 0 "Enter"]) := by
    simp [Linkedin.enterPasswordAndSubmit_eq, hv]
  unfold Linkedin.linkedinBody
  simp only [M.bind_def, hnav, M.bindM_ok, Linkedin.verifyLogin_eq, hpre, hwo,
    Bool.false_eq_true, if_false, huser, hpwd]
  rw [if_pos ho]
  simp only [Linkedin.fetchIdentityCredentials_eq, hrf, M.bindM_ok, liftE, hp2,
    M.bindM_error]
  simp [Linkedin.linkedinOtpPrefix, hwo]

theorem linkedinBody_refetch_parse_ok (env : Linkedin.LinkedinEnv)
    (config : Linkedin.Config) (creds : Linkedin.LinkedinCredentials)
    (resp2 : IdentityResponse) (c2 : Linkedin.LinkedinCredentials)
    (hgoto : env.gotoHomeOk = true)
    (hpre : feedCheck env.precheck = false)
    (hu : env.visible Linkedin.usernameSelector = true)
    (hv : env.visible Linkedin.passwordSelector = true)
    (ho : creds.otp ≠ "")
    (hrf : env.refetchResult = Except.ok resp2)
    (hp2 : Linkedin.parseLinkedinCredentials resp2.credentials = Except.ok c2) :
    ∃ (res : Except String LoginResult) (tail : List Act),
      Linkedin.linkedinBody env config creds
        = (res,
           Linkedin.linkedinOtpPrefix env config creds
             ++ [Act.fetchCredentials config.identityId]
             ++ (Linkedin.submitOtpCode env c2.otp 6 config.timeoutMs).2
             ++ tail)
        ∧ tail.countP isFetchAct = 0 := by
  have hwo : env.precheck.waitOk = false := by
    simp [feedCheck] at hpre
    exact hpre.1
  have hnav : Linkedin.navigateToHomepage env config
      = (Except.ok (), [Act.navigate config.homeUrl config.timeoutMs]) := by
    simp [Linkedin.navigateToHomepage_eq, hgoto]
  have huser : Linkedin.enterUsername env creds.username config.timeoutMs
      = (Except.ok (), [Act.waitVisibleFor Linkedin.usernameSelector config.timeoutMs,
          Act.fill Linkedin.usernameSelector 0 creds.username,
          Act.press Linkedin.usernameSelector 0 "Tab"]) := by
    simp [Linkedin.enterUsername_eq, hu]
  have hpwd : Linkedin.enterPasswordAndSubmit env creds.password config.timeoutMs
      = (Except.ok (), [Act.waitVisibleFor Linkedin.passwordSelector config.timeoutMs,
          Act.fill Linkedin.passwordSelector 0 creds.password,
          Act.press Linkedin.passwordSelector 0 "Enter"]) := by
    simp [Linkedin.enterPasswordAndSubmit_eq, hv]
  unfold Linkedin.linkedinBody
  simp only [M.bind_def, hnav, M.bindM_ok, Linkedin.verifyLogin_eq, hpre, hwo,
    Bool.false_eq_true, if_false, huser, hpwd]
  rw [if_pos ho]
  simp only [Linkedin.fetchIdentityCredentials_eq, hrf, M.bindM_ok, liftE, hp2,
    M.bindM_error]
  rcases hs : Linkedin.submitOtpCode env c2.otp 6 config.timeoutMs with ⟨rs | u2, ts⟩
  · refine ⟨Except.error rs, [], ?_, rfl⟩
    simp only [hs, M.bindM_error]
    simp [Linkedin.linkedinOtpPrefix, hwo, hs]
  · refine ⟨(if feedCheck env.finalVerify then Except.ok { success := true, message := "Logged in to Linkedin as " ++ c2.username ++ "." } else Except.ok { success := false, message := "Login flow completed but Linkedin Feed URL not confirmed. Current URL: " ++ env.finalVerify.currentUrl }), (Act.waitForUrl Linkedin.feedUrlPattern (max config.timeoutMs 10000) :: (if env.finalVerify.waitOk then [] else [Act.currentUrlCheck])), ?_, ?_⟩
    · simp only [hs, M.bindM_ok, M.pure_def, Linkedin.verifyLogin_eq]
      by_cases hfc : feedCheck env.finalVerify <;>
        simp [Linkedin.linkedinOtpPrefix, hwo, hfc, hs]
    · split_ifs <;> simp [isFetchAct]

set_option maxHeartbeats 1600000

/-- C10: on the LinkedIn OTP path (valid initial bundle carrying a
non-empty OTP, working session, context and page, reachable fields),
the identity provider is fetched exactly twice in the whole run; full
extraction is re-run on the refreshed bundle: when it fails with
message m the try body throws m mid-attempt (no OTP is submitted) and
the boundary converts it to a returned failure carrying m, even though
the original bundle was valid; when it succeeds with bundle c2, the
OTP-submission step runs with the refreshed value c2.otp. -/
theorem claim_C10_otp_refetch :
    ∀ (env : Linkedin.LinkedinEnv) (config : Linkedin.Config)
      (creds : Linkedin.LinkedinCredentials) (resp resp2 : IdentityResponse),
    Linkedin.getConfig env = Except.ok config →
    env.fetchResult = Except.ok resp →
    Linkedin.parseLinkedinCredentials resp.credentials = Except.ok creds →
    env.sessionResult = Except.ok () →
    env.hasContext = true →
    env.hasPage = true →
    env.gotoHomeOk = true →
    feedCheck env.precheck = false →
    env.visible Linkedin.usernameSelector = true →
    env.visible Linkedin.passwordSelector = true →
    creds.otp ≠ "" →
    env.refetchResult = Except.ok resp2 →
    ((Linkedin.LoginToLinkedin env).2).countP isFetchAct = 2
    ∧ (∀ m, Linkedin.parseLinkedinCredentials resp2.credentials = Except.error m →
        (Linkedin.linkedinBody env config creds).1 = Except.error m
        ∧ (Linkedin.LoginToLinkedin env).1
            = Except.ok { success := false, message := m })
    ∧ (∀ c2, Linkedin.parseLinkedinCredentials resp2.credentials = Except.ok c2 →
        ∃ tpre tpost, (Linkedin.LoginToLinkedin env).2
          = tpre ++ (Linkedin.submitOtpCode env c2.otp 6 config.timeoutMs).2 ++ tpost) := by
  intro env config creds resp resp2 hcfg hfetch hparse hses hctx hpage hgoto hprez hu hv ho hrf
  have hpre0 : Linkedin.linkedinPre env
      = (Except.ok (config, creds), [Act.fetchCredentials config.identityId]) := by
    simp [Linkedin.linkedinPre_eq, hcfg, hfetch, hparse]
  have hses0 : Linkedin.getAnchorBrowser env config (creds.otp == "")
      = (Except.ok (),
         [if config.sessionId = "" then Act.createSession (creds.otp == "")
          else Act.connectSession config.sessionId]) := by
    rw [Linkedin.getAnchorBrowser_eq, hses]
  rcases hp2 : Linkedin.parseLinkedinCredentials resp2.credentials with m | c2
  · have hbody := linkedinBody_refetch_parse_error env config creds resp2 m
      hgoto hprez hu hv ho hrf hp2
    have hm : m ≠ "" := linkedin_parse_error_ne resp2.credentials m hp2
    have hflow : Linkedin.LoginToLinkedin env
        = (Except.ok { success := false, message := m },
           [Act.fetchCredentials config.identityId]
             ++ [if config.sessionId = "" then Act.createSession (creds.otp == "")
                 else Act.connectSession config.sessionId]
             ++ (Linkedin.linkedinOtpPrefix env config creds
                 ++ [Act.fetchCredentials config.identityId])
             ++ [Act.closeBrowser]) := by
      unfold Linkedin.LoginToLinkedin
      simp [hpre0, hses0, hctx, hpage, hbody, hm]
    refine ⟨?_, ?_, ?_⟩
    · rw [hflow]
      by_cases hsid : config.sessionId = "" <;> by_cases hwo : env.precheck.waitOk <;>
        simp [Linkedin.linkedinOtpPrefix, isFetchAct, hsid, hwo, List.countP_append,
          List.countP_cons]
    · intro m2 hm2
      have hmm : m = m2 := by injection hm2
      subst hmm
      exact ⟨by rw [hbody], by rw [hflow]⟩
    · intro c2 hc2
      simp at hc2
  · obtain ⟨res, tail, hbdeq, htail0⟩ :=
      linkedinBody_refetch_parse_ok env config creds resp2 c2 hgoto hprez hu hv ho hrf hp2
    have hts0 : ((Linkedin.submitOtpCode env c2.otp 6 config.timeoutMs).2).countP isFetchAct
        = 0 :=
      Linkedin.countP_submitOtp_zero isFetchAct env c2.otp 6 config.timeoutMs
        (fun s => rfl) rfl (fun s i v => rfl) (fun s i v => rfl) (fun k => rfl)
        (fun pat k => rfl) rfl (fun s i _ => rfl) (fun s i _ => rfl)
    have hflowt : (Linkedin.LoginToLinkedin env).2
        = [Act.fetchCredentials config.identityId]
          ++ [if config.sessionId = "" then Act.createSession (creds.otp == "")
              else Act.connectSession config.sessionId]
          ++ (Linkedin.linkedinOtpPrefix env config creds
              ++ [Act.fetchCredentials config.identityId]
              ++ (Linkedin.submitOtpCode env c2.otp 6 config.timeoutMs).2
              ++ tail)
          ++ [Act.closeBrowser] := by
      unfold Linkedin.LoginToLinkedin
      rcases res with e | r <;> simp [hpre0, hses0, hctx, hpage, hbdeq]
    refine ⟨?_, ?_, ?_⟩
    · rw [hflowt]
      by_cases hsid : config.sessionId = "" <;> by_cases hwo : env.precheck.waitOk <;>
        simp [Linkedin.linkedinOtpPrefix, isFetchAct, hsid, hwo, List.countP_append,
          List.countP_cons, hts0, htail0]
    · intro m2 hm2
      simp at hm2
    · intro c2x hc2x
      have hcc : c2 = c2x := by injection hc2x
      subst hcc
      refine ⟨[Act.fetchCredentials config.identityId]
          ++ [if config.sessionId = "" then Act.createSession (creds.otp == "")
              else Act.connectSession config.sessionId]
          ++ (Linkedin.linkedinOtpPrefix env config creds
              ++ [Act.fetchCredentials config.identityId]),
        tail ++ [Act.closeBrowser], ?_⟩
      rw [hflowt]
      simp [List.append_assoc]

set_option maxHeartbeats 200000

set_option maxHeartbeats 1600000

theorem claim_C10_witness :
    ((Linkedin.LoginToLinkedin otpRefetchBrokenEnv).2).countP isFetchAct = 2
    ∧ (Linkedin.LoginToLinkedin otpRefetchBrokenEnv).1
        = Except.ok { success := false, message := "Missing required credentials. Found: username=false, password=false" }
    ∧ ((Linkedin.LoginToLinkedin otpMultiEnv).2).countP isFetchAct = 2
    ∧ (∃ tpre tpost, (Linkedin.LoginToLinkedin otpMultiEnv).2
        = tpre ++ (Linkedin.submitOtpCode otpMultiEnv "654321" 6 10000).2 ++ tpost) := by
  have h1 := claim_C10_otp_refetch otpRefetchBrokenEnv
    ⟨"", "id1", 10000, "https://www.linkedin.com/uas/login"⟩
    ⟨"u", "p", "111222"⟩
    ⟨"Ada", [Cred.username_password "u" "p", Cred.authenticator (some "111222")]⟩
    ⟨"Ada", [Cred.authenticator (some "654321")]⟩
    (by rfl) rfl (by rfl) rfl rfl rfl rfl (by decide) (by rfl) (by rfl)
    (by decide) rfl
  have h2 := claim_C10_otp_refetch otpMultiEnv
    ⟨"", "id1", 10000, "https://www.linkedin.com/uas/login"⟩
    ⟨"u", "p", "111222"⟩
    ⟨"Ada", [Cred.username_password "u" "p", Cred.authenticator (some "111222")]⟩
    ⟨"Ada", [Cred.username_password "u" "p", Cred.authenticator (some "654321")]⟩
    (by rfl) rfl (by rfl) rfl rfl rfl rfl (by decide) (by rfl) (by rfl)
    (by decide) rfl
  refine ⟨h1.1, ?_, h2.1, ?_⟩
  · exact (h1.2.1 "Missing required credentials. Found: username=false, password=false"
      (by rfl)).2
  · exact h2.2.2 ⟨"u", "p", "654321"⟩ (by rfl)

set_option maxHeartbeats 200000
